import Mathlib

/-!
# SheepShaver CPU glue (sheepshaver_glue.cpp)

A shallow embedding of the glue between the Kheperix PowerPC core and the
SheepShaver engine interface, and theorems about its context-saving
trampolines, the run-mode word, the 68k register marshalling, the synthetic
opcode encoding and dispatch, the interrupt gate, the fault classifier and
the Resource Manager thunk.

Conventions of the embedding:

* machine words are natural numbers; 32-bit arithmetic is written with
  explicit reduction modulo 2^32 (`uint32`, `add32`, `sub32`);
* a register bank is a function from the register number to its content;
* guest memory is a function from byte address to byte, accessed big-endian;
* every engine (`main_cpu`, `interrupt_cpu`) has its own register file,
  guest memory is shared;
* functions of other translation units (the PowerPC core, the 68k-op
  dispatcher, device hooks) are fields of `Env`, constants of absent headers
  are fields of `Config`;
* calls of hooks that only act on the outside world (`printf`,
  `QuitEmulator`, `check_load_invoc`) are recorded in `State.log`.
-/

namespace SheepShaver

/-! ## Machine arithmetic -/

/-- Conversion to `uint32`. -/
def uint32 (n : Nat) : Nat := n % 4294967296

/-- Addition of two `uint32` values. -/
def add32 (a b : Nat) : Nat := (a + b) % 4294967296

/-- Subtraction of two `uint32` values. -/
def sub32 (a b : Nat) : Nat := (a + (4294967296 - b % 4294967296)) % 4294967296

/-- The cast `(uint32)(int32)(int16)x`: sign extension of the low halfword. -/
def sext16 (x : Nat) : Nat :=
  if x % 65536 < 32768 then x % 65536 else x % 65536 + 4294901760

/-- The cast `(int16)x` as a mathematical integer. -/
def int16 (x : Nat) : Int :=
  if x % 65536 < 32768 then (x % 65536 : Nat) else ((x % 65536 : Nat) : Int) - 65536

/-- The cast `(int32)x` as a mathematical integer. -/
def int32 (x : Nat) : Int :=
  if x % 4294967296 < 2147483648 then (x % 4294967296 : Nat)
  else ((x % 4294967296 : Nat) : Int) - 4294967296

/-- Counted loop `for (int i = 0; i < n; i++) body(i)`. -/
def loop {σ : Type} : Nat → (Nat → σ → σ) → σ → σ
  | 0, _, s => s
  | n + 1, body, s => body n (loop n body s)

/-- Array store `a[i] = v`. -/
def store (a : Nat → Nat) (i v : Nat) : Nat → Nat :=
  fun j => if j = i then v else a j

/-! ## Guest memory -/

/-- Modelled from the spec: `ReadMacInt16` of cpu_emulation.h, the
endian-aware accessor of big-endian guest memory (16-bit load). -/
def ReadMacInt16 (mem : Nat → Nat) (addr : Nat) : Nat :=
  (mem addr % 256) * 256 + mem (addr + 1) % 256

/-- Modelled from the spec: `ReadMacInt32` of cpu_emulation.h, the
endian-aware accessor of big-endian guest memory (32-bit load). -/
def ReadMacInt32 (mem : Nat → Nat) (addr : Nat) : Nat :=
  (mem addr % 256) * 16777216 + (mem (addr + 1) % 256) * 65536
    + (mem (addr + 2) % 256) * 256 + mem (addr + 3) % 256

/-- Modelled from the spec: `WriteMacInt16` of cpu_emulation.h, the
endian-aware accessor of big-endian guest memory (16-bit store). -/
def WriteMacInt16 (mem : Nat → Nat) (addr v : Nat) : Nat → Nat :=
  fun j =>
    if j = addr then v / 256 % 256
    else if j = addr + 1 then v % 256
    else mem j

/-- Modelled from the spec: `WriteMacInt32` of cpu_emulation.h, the
endian-aware accessor of big-endian guest memory (32-bit store). -/
def WriteMacInt32 (mem : Nat → Nat) (addr v : Nat) : Nat → Nat :=
  fun j =>
    if j = addr then v / 16777216 % 256
    else if j = addr + 1 then v / 65536 % 256
    else if j = addr + 2 then v / 256 % 256
    else if j = addr + 3 then v % 256
    else mem j

/-! ## Data model -/

/-- The 68k register snapshot `M68kRegisters` (emul_op.h): `d[8]`, `a[8]`. -/
structure M68kRegisters where
  d : Nat → Nat
  a : Nat → Nat

/-- Register file of one PowerPC engine (`powerpc_cpu`). -/
structure powerpc_registers where
  gpr : Nat → Nat
  fpr : Nat → Nat
  pc : Nat
  lr : Nat
  ctr : Nat
  cr : Nat
  xer : Nat
  spcflags : Nat

/-- The two engines the glue owns. -/
inductive cpu_id where
  | main_cpu
  | interrupt_cpu
  deriving DecidableEq, Repr

/-- Calls that leave the emulator: what the outside world observes. -/
inductive Event where
  | printf (msg : String)
  | QuitEmulator
  | check_load_invoc (type : Nat) (id : Int) (h : Nat)
  | printf_p (fmt : String) (p : Nat)
  | printf_s (fmt : String) (arg : String)
  | dump_registers (cpu : cpu_id)
  | dump_log (cpu : cpu_id)
  | mon
  deriving DecidableEq, Repr

/-- Process state seen by the glue: both engines, the shared guest memory,
the process-wide globals and the record of outside calls. -/
structure State where
  cpu : cpu_id → powerpc_registers
  current_cpu : cpu_id
  mem : Nat → Nat
  InterruptFlags : Nat
  log : List Event

namespace State

/-- Register read `gpr(n)` on engine `c`. -/
def gpr (s : State) (c : cpu_id) (n : Nat) : Nat := (s.cpu c).gpr n

/-- Register read `fpr(n)` on engine `c`. -/
def fpr (s : State) (c : cpu_id) (n : Nat) : Nat := (s.cpu c).fpr n

/-- Replace the register file of engine `c`. -/
def set_cpu (s : State) (c : cpu_id) (r : powerpc_registers) : State :=
  { s with cpu := fun k => if k = c then r else s.cpu k }

/-- Register store `gpr(n) = v` on engine `c`. -/
def set_gpr (s : State) (c : cpu_id) (n v : Nat) : State :=
  s.set_cpu c { s.cpu c with gpr := store (s.cpu c).gpr n v }

/-- Register store `fpr(n) = v` on engine `c`. -/
def set_fpr (s : State) (c : cpu_id) (n v : Nat) : State :=
  s.set_cpu c { s.cpu c with fpr := store (s.cpu c).fpr n v }

/-- Store `pc() = v` on engine `c`. -/
def set_pc (s : State) (c : cpu_id) (v : Nat) : State :=
  s.set_cpu c { s.cpu c with pc := v }

/-- Store `lr() = v` on engine `c`. -/
def set_lr (s : State) (c : cpu_id) (v : Nat) : State :=
  s.set_cpu c { s.cpu c with lr := v }

/-- Store `ctr() = v` on engine `c`. -/
def set_ctr (s : State) (c : cpu_id) (v : Nat) : State :=
  s.set_cpu c { s.cpu c with ctr := v }

/-- Store `cr().set(v)` on engine `c`. -/
def set_cr (s : State) (c : cpu_id) (v : Nat) : State :=
  s.set_cpu c { s.cpu c with cr := v }

/-- Store `spcflags().set(f)` on engine `c`: the flag bits are or-ed in. -/
def set_spcflags (s : State) (c : cpu_id) (f : Nat) : State :=
  s.set_cpu c { s.cpu c with spcflags := (s.cpu c).spcflags ||| f }

/-- Guest store `WriteMacInt32(addr, v)`. -/
def write32 (s : State) (addr v : Nat) : State :=
  { s with mem := WriteMacInt32 s.mem addr v }

/-- Guest store `WriteMacInt16(addr, v)`. -/
def write16 (s : State) (addr v : Nat) : State :=
  { s with mem := WriteMacInt16 s.mem addr v }

/-- Record a call that leaves the emulator. -/
def emit (s : State) (e : Event) : State :=
  { s with log := s.log ++ [e] }

end State

/-! ## Constants of absent headers and functions of other units -/

/-- Constants the glue takes from headers that are not part of this file
(xlowmem.h, emul_op.h, cpu_emulation.h, ppc-bitfields.hpp). -/
structure Config where
  XLM_RUN_MODE : Nat
  XLM_68K_R25 : Nat
  XLM_IRQ_NEST : Nat
  XLM_EXEC_RETURN_OPCODE : Nat
  MODE_68K : Nat
  MODE_NATIVE : Nat
  MODE_EMUL_OP : Nat
  KERNEL_DATA_BASE : Nat
  KernelDataAddr : Nat
  /-- Offset of the member `ed` inside `KernelData`. -/
  KernelData_ed : Nat
  /-- The value of `CR_SO_field<2>::mask()`. -/
  CR_SO_field_2_mask : Nat
  SPCFLAG_CPU_EXEC_RETURN : Nat
  SheepStack1Base : Nat
  ROM_BASE : Nat
  ROMType : Nat
  ROMTYPE_NEWWORLD : Nat
  M68K_RTS : Nat
  XLM_GET_RESOURCE : Nat
  XLM_GET_1_RESOURCE : Nat
  XLM_GET_IND_RESOURCE : Nat
  XLM_GET_1_IND_RESOURCE : Nat
  XLM_R_GET_RESOURCE : Nat
  /-- Build switch `WORDS_BIGENDIAN`: the host is big-endian. -/
  WORDS_BIGENDIAN : Bool
  /-- Build switch `ASYNC_IRQ`, which is also `MULTICORE_CPU`. -/
  ASYNC_IRQ : Bool
  NATIVE_PATCH_NAME_REGISTRY : Nat
  NATIVE_VIDEO_INSTALL_ACCEL : Nat
  NATIVE_VIDEO_VBL : Nat
  NATIVE_VIDEO_DO_DRIVER_IO : Nat
  NATIVE_ETHER_IRQ : Nat
  NATIVE_ETHER_INIT : Nat
  NATIVE_ETHER_TERM : Nat
  NATIVE_ETHER_OPEN : Nat
  NATIVE_ETHER_CLOSE : Nat
  NATIVE_ETHER_WPUT : Nat
  NATIVE_ETHER_RSRV : Nat
  NATIVE_SERIAL_NOTHING : Nat
  NATIVE_SERIAL_OPEN : Nat
  NATIVE_SERIAL_PRIME_IN : Nat
  NATIVE_SERIAL_PRIME_OUT : Nat
  NATIVE_SERIAL_CONTROL : Nat
  NATIVE_SERIAL_STATUS : Nat
  NATIVE_SERIAL_CLOSE : Nat
  NATIVE_GET_RESOURCE : Nat
  NATIVE_GET_1_RESOURCE : Nat
  NATIVE_GET_IND_RESOURCE : Nat
  NATIVE_GET_1_IND_RESOURCE : Nat
  NATIVE_R_GET_RESOURCE : Nat
  NATIVE_DISABLE_INTERRUPT : Nat
  NATIVE_ENABLE_INTERRUPT : Nat
  NATIVE_MAKE_EXECUTABLE : Nat
  ROM_SIZE : Nat
  ROM_AREA_SIZE : Nat
  RAMBase : Nat
  RAMSize : Nat
  /-- Number of bits of the host type `uintptr`. -/
  uintptr_bits : Nat
  /-- Build switch `ENABLE_VOSF`. -/
  ENABLE_VOSF : Bool
  /-- Build switch `ENABLE_MON`. -/
  ENABLE_MON : Bool

/-- Functions of other translation units, and addresses chosen by the host
compiler. -/
structure Env where
  /-- The PowerPC core: `powerpc_cpu::execute(entry)` on the given engine. -/
  execute : cpu_id → Nat → State → State
  /-- Address of the host stack slot `trampoline[]` seen as `uint32`. -/
  trampoline : Nat
  /-- The core method `record_cr0(value)` on the given engine. -/
  record_cr0 : cpu_id → Nat → State → State
  /-- The operation `op_ppc_rlwimi::apply(RS, SH, MASK, RA)` of the core. -/
  op_ppc_rlwimi : Nat → Nat → Nat → Nat → Nat
  /-- The 68k-op dispatcher `EmulOp(&r68, pc, selector)`: the final state and
  the snapshot it leaves in `r68`. -/
  EmulOp : M68kRegisters → Nat → Int → State → State × M68kRegisters
  /-- Address of the static array `proc[]` of `handle_interrupt`. -/
  proc : Nat
  /-- Indeterminate content of the uninitialised local `M68kRegisters r`. -/
  uninitialized_r : M68kRegisters
  /-- Register file of a freshly constructed engine. -/
  new_cpu : powerpc_registers
  DisableInterrupt : State → State
  EnableInterrupt : State → State
  DoPatchNameRegistry : State → State
  VideoInstallAccel : State → State
  VideoVBL : State → State
  /-- Device hook `VideoDoDriverIO(a, b, c, d, e)`: final state and returned `int16`. -/
  VideoDoDriverIO : Nat → Nat → Nat → Nat → Nat → State → State × Nat
  EtherIRQ : State → State
  InitStreamModule : Nat → State → State × Nat
  TerminateStreamModule : State → State
  ether_open : Nat → Nat → Nat → Nat → Nat → State → State × Nat
  ether_close : Nat → Nat → Nat → State → State × Nat
  ether_wput : Nat → Nat → State → State × Nat
  ether_rsrv : Nat → State → State × Nat
  SerialNothing : Nat → Nat → State → State × Nat
  SerialOpen : Nat → Nat → State → State × Nat
  SerialPrimeIn : Nat → Nat → State → State × Nat
  SerialPrimeOut : Nat → Nat → State → State × Nat
  SerialControl : Nat → Nat → State → State × Nat
  SerialStatus : Nat → Nat → State → State × Nat
  SerialClose : Nat → Nat → State → State × Nat
  MakeExecutable : Nat → Nat → Nat → State → State
  /-- What `check_load_invoc(type, id, h)` does to the emulator state. -/
  check_load_invoc : Nat → Int → Nat → State → State
  /-- The video hook `Screen_fault_handler(fault_address, fault_instruction)`. -/
  Screen_fault_handler : Nat → Nat → State → Bool
  /-- The preferences lookup `PrefsFindBool(name)`. -/
  PrefsFindBool : String → Bool

/-- Modelled from the spec: the constant `POWERPC_EMUL_OP` of emul_op.h, the
synthetic opcode with primary opcode field 6 and every other bit clear. -/
def POWERPC_EMUL_OP : Nat := 0x18000000

/-- Content of the one-word trampoline `trampoline[] = { htonl(POWERPC_EMUL_OP | 1) }`
as the guest reads it: the EXEC_RETURN opcode. -/
def trampoline_word : Nat := POWERPC_EMUL_OP ||| 1

/-- Byte reversal of a 32-bit word. -/
def bswap_32 (x : Nat) : Nat :=
  (x % 256) * 16777216 + (x / 256 % 256) * 65536 + (x / 65536 % 256) * 256 + x / 16777216 % 256

/-- The conversion `tswap32` between host and guest (big-endian) byte order;
`htonl` and `ntohl` are the same function. -/
def tswap32 (cfg : Config) (x : Nat) : Nat :=
  if cfg.WORDS_BIGENDIAN then uint32 x else bswap_32 x

/-- The host-order read `kernel_data->v[off >> 2]` brought to its value with
`ntohl` or `tswap32`: the big-endian word at `KERNEL_DATA_BASE + off`. -/
def kernel_data_v (cfg : Config) (mem : Nat → Nat) (off : Nat) : Nat :=
  ReadMacInt32 mem (cfg.KERNEL_DATA_BASE + off)

/-- The host-order read `kernel_data->ed.v[off >> 2]` brought to its value with `ntohl`. -/
def kernel_data_ed_v (cfg : Config) (mem : Nat → Nat) (off : Nat) : Nat :=
  ReadMacInt32 mem (cfg.KERNEL_DATA_BASE + cfg.KernelData_ed + off)

/-- A direct host-order load `*(uint32 *)addr`. -/
def host_read32 (cfg : Config) (mem : Nat → Nat) (addr : Nat) : Nat :=
  tswap32 cfg (ReadMacInt32 mem addr)

/-! ## Synthetic opcode fields

NativeOp instruction format, bits numbered from the most significant one:
primary opcode 6 in bits 0..5, FN in bit 20, OP in bits 21..25, sub-function
in bits 26..31. -/

/-- Modelled from the spec: `bit_field<FB, FE>::mask()` of ppc-bitfields.hpp,
the bits FB..FE in PowerPC numbering (bit 0 is the most significant). -/
def bit_field_mask (FB FE : Nat) : Nat := (2 ^ (FE + 1 - FB) - 1) <<< (31 - FE)

/-- Modelled from the spec: `bit_field<FB, FE>::extract(value)` of ppc-bitfields.hpp. -/
def bit_field_extract (FB FE : Nat) (value : Nat) : Nat :=
  (value &&& bit_field_mask FB FE) >>> (31 - FE)

/-- Modelled from the spec: `bit_field<FB, FE>::test(value)` of ppc-bitfields.hpp. -/
def bit_field_test (FB FE : Nat) (value : Nat) : Bool :=
  decide ((value &&& bit_field_mask FB FE) ≠ 0)

/-- The accessor `FN_field::test`, with `FN_field = bit_field<20, 20>`. -/
def FN_field_test (opcode : Nat) : Bool := bit_field_test 20 20 opcode

/-- The accessor `FN_field::extract`, with `FN_field = bit_field<20, 20>`. -/
def FN_field_extract (opcode : Nat) : Nat := bit_field_extract 20 20 opcode

/-- The accessor `NATIVE_OP_field::extract`, with `NATIVE_OP_field = bit_field<21, 25>`. -/
def NATIVE_OP_field_extract (opcode : Nat) : Nat := bit_field_extract 21 25 opcode

/-- The accessor `EMUL_OP_field::extract`, with `EMUL_OP_field = bit_field<26, 31>`. -/
def EMUL_OP_field_extract (opcode : Nat) : Nat := bit_field_extract 26 31 opcode

/-- The argument of `tswap32` in the macro `POWERPC_NATIVE_OP_INIT(LR, OP)`:
the opcode before byte swapping. -/
def POWERPC_NATIVE_OP_word (LR OP : Nat) : Nat :=
  uint32 (POWERPC_EMUL_OP ||| uint32 (LR <<< 11) ||| uint32 (uint32 OP <<< 6) ||| 2)

/-- The macro `POWERPC_NATIVE_OP_INIT(LR, OP)`. -/
def POWERPC_NATIVE_OP_INIT (cfg : Config) (LR OP : Nat) : Nat :=
  tswap32 cfg (POWERPC_NATIVE_OP_word LR OP)

/-- The initialiser list of `NativeOpTable`: the arguments `(LR, OP)` of each
`POWERPC_NATIVE_OP_INIT` in table order. -/
def NativeOpTable_init (cfg : Config) : List (Nat × Nat) :=
  [ (1, cfg.NATIVE_PATCH_NAME_REGISTRY),
    (1, cfg.NATIVE_VIDEO_INSTALL_ACCEL),
    (1, cfg.NATIVE_VIDEO_VBL),
    (1, cfg.NATIVE_VIDEO_DO_DRIVER_IO),
    (1, cfg.NATIVE_ETHER_IRQ),
    (1, cfg.NATIVE_ETHER_INIT),
    (1, cfg.NATIVE_ETHER_TERM),
    (1, cfg.NATIVE_ETHER_OPEN),
    (1, cfg.NATIVE_ETHER_CLOSE),
    (1, cfg.NATIVE_ETHER_WPUT),
    (1, cfg.NATIVE_ETHER_RSRV),
    (1, cfg.NATIVE_SERIAL_NOTHING),
    (1, cfg.NATIVE_SERIAL_OPEN),
    (1, cfg.NATIVE_SERIAL_PRIME_IN),
    (1, cfg.NATIVE_SERIAL_PRIME_OUT),
    (1, cfg.NATIVE_SERIAL_CONTROL),
    (1, cfg.NATIVE_SERIAL_STATUS),
    (1, cfg.NATIVE_SERIAL_CLOSE),
    (1, cfg.NATIVE_GET_RESOURCE),
    (1, cfg.NATIVE_GET_1_RESOURCE),
    (1, cfg.NATIVE_GET_IND_RESOURCE),
    (1, cfg.NATIVE_GET_1_IND_RESOURCE),
    (1, cfg.NATIVE_R_GET_RESOURCE),
    (0, cfg.NATIVE_DISABLE_INTERRUPT),
    (0, cfg.NATIVE_ENABLE_INTERRUPT),
    (1, cfg.NATIVE_MAKE_EXECUTABLE) ]

/-- The table `NativeOpTable` as the host stores it. -/
def NativeOpTable (cfg : Config) : List Nat :=
  (NativeOpTable_init cfg).map (fun p => POWERPC_NATIVE_OP_INIT cfg p.1 p.2)

/-! ## Context-saving trampolines -/

/-- The method `sheepshaver_cpu::execute_ppc(entry)`. -/
def execute_ppc (env : Env) (this : cpu_id) (entry : Nat) (s : State) : State :=
  -- Save branch registers
  let saved_lr := (s.cpu this).lr
  let s := s.set_lr this env.trampoline
  let s := env.execute this entry s
  -- Restore branch registers
  s.set_lr this saved_lr

/-- The method `sheepshaver_cpu::execute_macos_code(tvect, nargs, args)`:
the final state and the returned value. -/
def execute_macos_code (env : Env) (this : cpu_id) (tvect nargs : Nat) (args : Nat → Nat)
    (s : State) : State × Nat :=
  -- Save program counters and branch registers
  let saved_pc := (s.cpu this).pc
  let saved_lr := (s.cpu this).lr
  let saved_ctr := (s.cpu this).ctr
  -- Build trampoline with EXEC_RETURN
  let s := s.set_lr this env.trampoline
  -- Create stack frame
  let s := s.set_gpr this 1 (sub32 (s.gpr this 1) 64)
  let proc := ReadMacInt32 s.mem tvect
  let toc := ReadMacInt32 s.mem (add32 tvect 4)
  -- Save PowerPC registers
  let regs : Nat → Nat := fun _ => 0
  let regs := store regs 0 (s.gpr this 2)
  let regs := loop nargs (fun i regs => store regs (i + 1) (s.gpr this (i + 3))) regs
  -- Prepare and call MacOS routine
  let s := s.set_gpr this 2 toc
  let s := loop nargs (fun i s => s.set_gpr this (i + 3) (args i)) s
  let s := env.execute this proc s
  let retval := s.gpr this 3
  -- Restore PowerPC registers
  let s := loop (nargs + 1) (fun i s => s.set_gpr this (i + 2) (regs i)) s
  -- Cleanup stack
  let s := s.set_gpr this 1 (add32 (s.gpr this 1) 64)
  -- Restore program counters and branch registers
  let s := s.set_pc this saved_pc
  let s := s.set_lr this saved_lr
  let s := s.set_ctr this saved_ctr
  (s, retval)

/-- The method `sheepshaver_cpu::execute_68k(entry, r)`: the final state and
the snapshot written back through `r`. -/
def execute_68k (cfg : Config) (env : Env) (this : cpu_id) (entry : Nat) (r : M68kRegisters)
    (s : State) : State × M68kRegisters :=
  -- SAFE_EXEC_68K
  let s := if ReadMacInt32 s.mem cfg.XLM_RUN_MODE ≠ cfg.MODE_EMUL_OP then
      s.emit (Event.printf "FATAL: Execute68k() not called from EMUL_OP mode\n")
    else s
  -- Save program counters and branch registers
  let saved_pc := (s.cpu this).pc
  let saved_lr := (s.cpu this).lr
  let saved_ctr := (s.cpu this).ctr
  let saved_cr := (s.cpu this).cr
  -- Create MacOS stack frame
  let sp := s.gpr this 1
  let s := s.set_gpr this 1 (sub32 (s.gpr this 1) 56)
  let s := s.write32 (s.gpr this 1) sp
  -- Save PowerPC registers
  let saved_GPRs := loop 19 (fun i a => store a i (s.gpr this (13 + i))) (fun _ => 0)
  let saved_FPRs := loop 18 (fun i a => store a i (s.fpr this (14 + i))) (fun _ => 0)
  -- Setup registers for 68k emulator
  let s := s.set_cr this cfg.CR_SO_field_2_mask
  let s := loop 8 (fun i s => s.set_gpr this (8 + i) (r.d i)) s
  let s := loop 7 (fun i s => s.set_gpr this (16 + i) (r.a i)) s
  let s := s.set_gpr this 23 0
  let s := s.set_gpr this 24 entry
  let s := s.set_gpr this 25 (ReadMacInt32 s.mem cfg.XLM_68K_R25)
  let s := s.set_gpr this 26 0
  let s := s.set_gpr this 28 0
  let s := s.set_gpr this 29 (kernel_data_ed_v cfg s.mem 0x74)
  let s := s.set_gpr this 30 (kernel_data_ed_v cfg s.mem 0x78)
  let s := s.set_gpr this 31 (add32 cfg.KernelDataAddr 0x1000)
  -- Push return address (points to EXEC_RETURN opcode) on stack
  let s := s.set_gpr this 1 (sub32 (s.gpr this 1) 4)
  let s := s.write32 (s.gpr this 1) cfg.XLM_EXEC_RETURN_OPCODE
  -- Rentering 68k emulator
  let s := s.write32 cfg.XLM_RUN_MODE cfg.MODE_68K
  -- Set r0 to 0 for 68k emulator
  let s := s.set_gpr this 0 0
  -- Execute 68k opcode
  let opcode := ReadMacInt16 s.mem (s.gpr this 24)
  let s := s.set_gpr this 24 (add32 (s.gpr this 24) 2)
  let s := s.set_gpr this 27 (sext16 (ReadMacInt16 s.mem (s.gpr this 24)))
  let s := s.set_gpr this 29 (add32 (s.gpr this 29) (opcode * 8))
  let s := env.execute this (s.gpr this 29) s
  -- Save r25 (contains current 68k interrupt level)
  let s := s.write32 cfg.XLM_68K_R25 (s.gpr this 25)
  -- Reentering EMUL_OP mode
  let s := s.write32 cfg.XLM_RUN_MODE cfg.MODE_EMUL_OP
  -- Save 68k registers
  let r := loop 8 (fun i (r : M68kRegisters) => { r with d := store r.d i (s.gpr this (8 + i)) }) r
  let r := loop 7 (fun i (r : M68kRegisters) => { r with a := store r.a i (s.gpr this (16 + i)) }) r
  -- Restore PowerPC registers
  let s := loop 19 (fun i s => s.set_gpr this (13 + i) (saved_GPRs i)) s
  let s := loop 18 (fun i s => s.set_fpr this (14 + i) (saved_FPRs i)) s
  -- Cleanup stack
  let s := s.set_gpr this 1 (add32 (s.gpr this 1) 56)
  -- Restore program counters and branch registers
  let s := s.set_pc this saved_pc
  let s := s.set_lr this saved_lr
  let s := s.set_ctr this saved_ctr
  let s := s.set_cr this saved_cr
  (s, r)

/-- The state in which `execute_macos_code` makes its nested `execute(proc)`
call: the prologue of the method up to the call. -/
def execute_macos_code_enter (env : Env) (this : cpu_id) (tvect nargs : Nat) (args : Nat → Nat)
    (s : State) : State :=
  let s := s.set_lr this env.trampoline
  let s := s.set_gpr this 1 (sub32 (s.gpr this 1) 64)
  let toc := ReadMacInt32 s.mem (add32 tvect 4)
  let s := s.set_gpr this 2 toc
  loop nargs (fun i s => s.set_gpr this (i + 3) (args i)) s

/-- The state in which `execute_68k` makes its nested `execute(gpr(29))` call:
the prologue of the method up to the call. -/
def execute_68k_enter (cfg : Config) (this : cpu_id) (entry : Nat) (r : M68kRegisters)
    (s : State) : State :=
  let s := if ReadMacInt32 s.mem cfg.XLM_RUN_MODE ≠ cfg.MODE_EMUL_OP then
      s.emit (Event.printf "FATAL: Execute68k() not called from EMUL_OP mode\n")
    else s
  let sp := s.gpr this 1
  let s := s.set_gpr this 1 (sub32 (s.gpr this 1) 56)
  let s := s.write32 (s.gpr this 1) sp
  let s := s.set_cr this cfg.CR_SO_field_2_mask
  let s := loop 8 (fun i s => s.set_gpr this (8 + i) (r.d i)) s
  let s := loop 7 (fun i s => s.set_gpr this (16 + i) (r.a i)) s
  let s := s.set_gpr this 23 0
  let s := s.set_gpr this 24 entry
  let s := s.set_gpr this 25 (ReadMacInt32 s.mem cfg.XLM_68K_R25)
  let s := s.set_gpr this 26 0
  let s := s.set_gpr this 28 0
  let s := s.set_gpr this 29 (kernel_data_ed_v cfg s.mem 0x74)
  let s := s.set_gpr this 30 (kernel_data_ed_v cfg s.mem 0x78)
  let s := s.set_gpr this 31 (add32 cfg.KernelDataAddr 0x1000)
  let s := s.set_gpr this 1 (sub32 (s.gpr this 1) 4)
  let s := s.write32 (s.gpr this 1) cfg.XLM_EXEC_RETURN_OPCODE
  let s := s.write32 cfg.XLM_RUN_MODE cfg.MODE_68K
  let s := s.set_gpr this 0 0
  let opcode := ReadMacInt16 s.mem (s.gpr this 24)
  let s := s.set_gpr this 24 (add32 (s.gpr this 24) 2)
  let s := s.set_gpr this 27 (sext16 (ReadMacInt16 s.mem (s.gpr this 24)))
  s.set_gpr this 29 (add32 (s.gpr this 29) (opcode * 8))

/-- The state `execute_68k` gets back from its nested `execute` call. -/
def execute_68k_nested (cfg : Config) (env : Env) (this : cpu_id) (entry : Nat)
    (r : M68kRegisters) (s : State) : State :=
  env.execute this ((execute_68k_enter cfg this entry r s).gpr this 29)
    (execute_68k_enter cfg this entry r s)

/-- The epilogue of `execute_68k`, from the return of the nested `execute`
call on: `s` is the state the core hands back, the other arguments are the
locals saved by the prologue. -/
def execute_68k_leave (cfg : Config) (this : cpu_id) (r : M68kRegisters)
    (saved_pc saved_lr saved_ctr saved_cr : Nat) (saved_GPRs saved_FPRs : Nat → Nat)
    (s : State) : State × M68kRegisters :=
  let s := s.write32 cfg.XLM_68K_R25 (s.gpr this 25)
  let s := s.write32 cfg.XLM_RUN_MODE cfg.MODE_EMUL_OP
  let r := loop 8 (fun i (r : M68kRegisters) => { r with d := store r.d i (s.gpr this (8 + i)) }) r
  let r := loop 7 (fun i (r : M68kRegisters) => { r with a := store r.a i (s.gpr this (16 + i)) }) r
  let s := loop 19 (fun i s => s.set_gpr this (13 + i) (saved_GPRs i)) s
  let s := loop 18 (fun i s => s.set_fpr this (14 + i) (saved_FPRs i)) s
  let s := s.set_gpr this 1 (add32 (s.gpr this 1) 56)
  let s := s.set_pc this saved_pc
  let s := s.set_lr this saved_lr
  let s := s.set_ctr this saved_ctr
  let s := s.set_cr this saved_cr
  (s, r)

/-- The global function `Execute68k(pc, r)`. -/
def Execute68k (cfg : Config) (env : Env) (pc : Nat) (r : M68kRegisters) (s : State) :
    State × M68kRegisters :=
  execute_68k cfg env s.current_cpu pc r s

/-! ## Resource Manager thunk -/

/-- The method `sheepshaver_cpu::get_resource(old_get_resource)`. -/
def sheepshaver_cpu.get_resource (env : Env) (this : cpu_id) (old_get_resource : Nat)
    (s : State) : State :=
  let type := s.gpr this 3
  let id := int16 (s.gpr this 4)
  -- Create stack frame
  let s := s.set_gpr this 1 (sub32 (s.gpr this 1) 56)
  -- Call old routine
  let s := execute_ppc env this old_get_resource s
  -- Call CheckLoad()
  let handle := s.gpr this 3
  let s := env.check_load_invoc type id handle (s.emit (Event.check_load_invoc type id handle))
  let s := s.set_gpr this 3 handle
  -- Cleanup stack
  s.set_gpr this 1 (add32 (s.gpr this 1) 56)

/-- The static thunk `get_resource()`. -/
def get_resource (cfg : Config) (env : Env) (s : State) : State :=
  sheepshaver_cpu.get_resource env s.current_cpu (ReadMacInt32 s.mem cfg.XLM_GET_RESOURCE) s

/-- The static thunk `get_1_resource()`. -/
def get_1_resource (cfg : Config) (env : Env) (s : State) : State :=
  sheepshaver_cpu.get_resource env s.current_cpu (ReadMacInt32 s.mem cfg.XLM_GET_1_RESOURCE) s

/-- The static thunk `get_ind_resource()`. -/
def get_ind_resource (cfg : Config) (env : Env) (s : State) : State :=
  sheepshaver_cpu.get_resource env s.current_cpu (ReadMacInt32 s.mem cfg.XLM_GET_IND_RESOURCE) s

/-- The static thunk `get_1_ind_resource()`. -/
def get_1_ind_resource (cfg : Config) (env : Env) (s : State) : State :=
  sheepshaver_cpu.get_resource env s.current_cpu (ReadMacInt32 s.mem cfg.XLM_GET_1_IND_RESOURCE) s

/-- The static thunk `r_get_resource()`. -/
def r_get_resource (cfg : Config) (env : Env) (s : State) : State :=
  sheepshaver_cpu.get_resource env s.current_cpu (ReadMacInt32 s.mem cfg.XLM_R_GET_RESOURCE) s

/-! ## Native-op dispatcher -/

/-- The statement `GPR(3) = v` after a host call: the store goes to the
engine that is current when the call has returned. -/
def set_GPR3 (p : State × Nat) (conv : Nat → Nat) : State :=
  p.1.set_gpr p.1.current_cpu 3 (conv p.2)

/-- The table `serial_callbacks[]` of `NativeOp`. -/
def serial_callbacks (env : Env) : List (Nat → Nat → State → State × Nat) :=
  [env.SerialNothing, env.SerialOpen, env.SerialPrimeIn, env.SerialPrimeOut,
   env.SerialControl, env.SerialStatus, env.SerialClose]

/-- The table `get_resource_callbacks[]` of `NativeOp`. -/
def get_resource_callbacks (cfg : Config) (env : Env) : List (State → State) :=
  [get_resource cfg env, get_1_resource cfg env, get_ind_resource cfg env,
   get_1_ind_resource cfg env, r_get_resource cfg env]

/-- The function `NativeOp(selector)`. `GPR(n)` is `current_cpu->gpr(n)`. An
index outside a callback table (undefined in C, excluded when the selector
enumeration is contiguous) is modelled as no call. -/
def NativeOp (cfg : Config) (env : Env) (selector : Nat) (s : State) : State :=
  let GPR := fun n => s.gpr s.current_cpu n
  if selector = cfg.NATIVE_PATCH_NAME_REGISTRY then env.DoPatchNameRegistry s
  else if selector = cfg.NATIVE_VIDEO_INSTALL_ACCEL then env.VideoInstallAccel s
  else if selector = cfg.NATIVE_VIDEO_VBL then env.VideoVBL s
  else if selector = cfg.NATIVE_VIDEO_DO_DRIVER_IO then
    set_GPR3 ( Env.VideoDoDriverIO env (GPR 3) (GPR 4) (GPR 5) (GPR 6) (GPR 7) s) sext16
  else if cfg.WORDS_BIGENDIAN ∧ selector = cfg.NATIVE_ETHER_IRQ then env.EtherIRQ s
  else if cfg.WORDS_BIGENDIAN ∧ selector = cfg.NATIVE_ETHER_INIT then
    set_GPR3 (env.InitStreamModule (GPR 3) s) uint32
  else if cfg.WORDS_BIGENDIAN ∧ selector = cfg.NATIVE_ETHER_TERM then env.TerminateStreamModule s
  else if cfg.WORDS_BIGENDIAN ∧ selector = cfg.NATIVE_ETHER_OPEN then
    set_GPR3 (env.ether_open (GPR 3) (GPR 4) (GPR 5) (GPR 6) (GPR 7) s) uint32
  else if cfg.WORDS_BIGENDIAN ∧ selector = cfg.NATIVE_ETHER_CLOSE then
    set_GPR3 (env.ether_close (GPR 3) (GPR 4) (GPR 5) s) uint32
  else if cfg.WORDS_BIGENDIAN ∧ selector = cfg.NATIVE_ETHER_WPUT then
    set_GPR3 (env.ether_wput (GPR 3) (GPR 4) s) uint32
  else if cfg.WORDS_BIGENDIAN ∧ selector = cfg.NATIVE_ETHER_RSRV then
    set_GPR3 (env.ether_rsrv (GPR 3) s) uint32
  else if ¬ cfg.WORDS_BIGENDIAN ∧ selector = cfg.NATIVE_ETHER_INIT then
    s.set_gpr s.current_cpu 3 0
  else if selector = cfg.NATIVE_SERIAL_NOTHING ∨ selector = cfg.NATIVE_SERIAL_OPEN
      ∨ selector = cfg.NATIVE_SERIAL_PRIME_IN ∨ selector = cfg.NATIVE_SERIAL_PRIME_OUT
      ∨ selector = cfg.NATIVE_SERIAL_CONTROL ∨ selector = cfg.NATIVE_SERIAL_STATUS
      ∨ selector = cfg.NATIVE_SERIAL_CLOSE then
    if cfg.NATIVE_SERIAL_NOTHING ≤ selector then
      match (serial_callbacks env)[selector - cfg.NATIVE_SERIAL_NOTHING]? with
      | some callback => set_GPR3 (callback (GPR 3) (GPR 4) s) sext16
      | none => s
    else s
  else if selector = cfg.NATIVE_GET_RESOURCE ∨ selector = cfg.NATIVE_GET_1_RESOURCE
      ∨ selector = cfg.NATIVE_GET_IND_RESOURCE ∨ selector = cfg.NATIVE_GET_1_IND_RESOURCE
      ∨ selector = cfg.NATIVE_R_GET_RESOURCE then
    if cfg.NATIVE_GET_RESOURCE ≤ selector then
      match (get_resource_callbacks cfg env)[selector - cfg.NATIVE_GET_RESOURCE]? with
      | some callback => callback s
      | none => s
    else s
  else if selector = cfg.NATIVE_DISABLE_INTERRUPT then env.DisableInterrupt s
  else if selector = cfg.NATIVE_ENABLE_INTERRUPT then env.EnableInterrupt s
  else if selector = cfg.NATIVE_MAKE_EXECUTABLE then
    env.MakeExecutable 0 (GPR 4) (GPR 5) s
  else
    let s := s.emit (Event.printf
      ("FATAL: NATIVE_OP called with bogus selector " ++ toString selector ++ "\n"))
    s.emit Event.QuitEmulator

/-! ## The sheep pseudo-opcode -/

/-- The marshalling loops of `execute_sheep`: `r68.d[i] = gpr(8 + i)`,
`r68.a[i] = gpr(16 + i)`, `r68.a[7] = gpr(1)`. -/
def marshal_68k (this : cpu_id) (s : State) (r68 : M68kRegisters) : M68kRegisters :=
  let r68 := loop 8 (fun i (r : M68kRegisters) => { r with d := store r.d i (s.gpr this (8 + i)) }) r68
  let r68 := loop 7 (fun i (r : M68kRegisters) => { r with a := store r.a i (s.gpr this (16 + i)) }) r68
  { r68 with a := store r68.a 7 (s.gpr this 1) }

/-- The un-marshalling loops of `execute_sheep`: `gpr(8 + i) = r68.d[i]`,
`gpr(16 + i) = r68.a[i]`, `gpr(1) = r68.a[7]`. -/
def unmarshal_68k (this : cpu_id) (r68 : M68kRegisters) (s : State) : State :=
  let s := loop 8 (fun i s => s.set_gpr this (8 + i) (r68.d i)) s
  let s := loop 7 (fun i s => s.set_gpr this (16 + i) (r68.a i)) s
  s.set_gpr this 1 (r68.a 7)

/-- The state and arguments with which the EMUL_OP form of `execute_sheep`
calls `EmulOp`. -/
def execute_sheep_enter (cfg : Config) (env : Env) (this : cpu_id) (s : State) :
    State × M68kRegisters :=
  let s := s.write32 cfg.XLM_68K_R25 (s.gpr this 25)
  let s := s.write32 cfg.XLM_RUN_MODE cfg.MODE_EMUL_OP
  (s, marshal_68k this s env.uninitialized_r)

/-- The method `sheepshaver_cpu::execute_sheep(opcode)`. The `assert` on the
primary opcode is a debugging aid and has no effect on the state. -/
def execute_sheep (cfg : Config) (env : Env) (this : cpu_id) (opcode : Nat) (s : State) : State :=
  if opcode &&& 0x3f = 0 then
    -- EMUL_RETURN
    s.emit Event.QuitEmulator
  else if opcode &&& 0x3f = 1 then
    -- EXEC_RETURN
    s.set_spcflags this cfg.SPCFLAG_CPU_EXEC_RETURN
  else if opcode &&& 0x3f = 2 then
    -- EXEC_NATIVE
    let s := NativeOp cfg env (NATIVE_OP_field_extract opcode) s
    if FN_field_test opcode then s.set_pc this (s.cpu this).lr
    else s.set_pc this (add32 (s.cpu this).pc 4)
  else
    -- EMUL_OP
    let r68 := env.uninitialized_r
    let s := s.write32 cfg.XLM_68K_R25 (s.gpr this 25)
    let s := s.write32 cfg.XLM_RUN_MODE cfg.MODE_EMUL_OP
    let r68 := marshal_68k this s r68
    let res := env.EmulOp r68 (s.gpr this 24) (int32 (sub32 (EMUL_OP_field_extract opcode) 3)) s
    let s := unmarshal_68k this res.2 res.1
    let s := s.write32 cfg.XLM_RUN_MODE cfg.MODE_68K
    s.set_pc this (add32 (s.cpu this).pc 4)

/-! ## Interrupts -/

/-- The function `cpu_push(new_cpu)`. -/
def cpu_push (cfg : Config) (new_cpu : cpu_id) (s : State) : State :=
  if cfg.ASYNC_IRQ then { s with current_cpu := new_cpu } else s

/-- The function `cpu_pop()`. -/
def cpu_pop (cfg : Config) (s : State) : State :=
  if cfg.ASYNC_IRQ then { s with current_cpu := cpu_id.main_cpu } else s

/-- The method `sheepshaver_cpu::interrupt(entry)`. -/
def interrupt (cfg : Config) (env : Env) (this : cpu_id) (entry : Nat) (s : State) : State :=
  -- Save program counters and branch registers
  let saved_pc := (s.cpu this).pc
  let saved_lr := (s.cpu this).lr
  let saved_ctr := (s.cpu this).ctr
  let saved_sp := s.gpr this 1
  -- Initialize stack pointer to SheepShaver alternate stack base
  let s := s.set_gpr this 1 (sub32 cfg.SheepStack1Base 64)
  -- Prepare registers for nanokernel interrupt routine
  let s := s.write32 (cfg.KERNEL_DATA_BASE + 0x004) (s.gpr this 1)
  let s := s.write32 (cfg.KERNEL_DATA_BASE + 0x018) (s.gpr this 6)
  let s := s.set_gpr this 6 (kernel_data_v cfg s.mem 0x65c)
  let s := s.write32 (add32 (s.gpr this 6) 0x13c) (s.gpr this 7)
  let s := s.write32 (add32 (s.gpr this 6) 0x144) (s.gpr this 8)
  let s := s.write32 (add32 (s.gpr this 6) 0x14c) (s.gpr this 9)
  let s := s.write32 (add32 (s.gpr this 6) 0x154) (s.gpr this 10)
  let s := s.write32 (add32 (s.gpr this 6) 0x15c) (s.gpr this 11)
  let s := s.write32 (add32 (s.gpr this 6) 0x164) (s.gpr this 12)
  let s := s.write32 (add32 (s.gpr this 6) 0x16c) (s.gpr this 13)
  let s := s.set_gpr this 1 cfg.KernelDataAddr
  let s := s.set_gpr this 7 (kernel_data_v cfg s.mem 0x660)
  let s := s.set_gpr this 8 0
  let s := s.set_gpr this 10 env.trampoline
  let s := s.set_gpr this 12 env.trampoline
  let s := s.set_gpr this 13 (s.cpu this).cr
  -- rlwimi. r7,r7,8,0,0
  let result := env.op_ppc_rlwimi (s.gpr this 7) 8 0x80000000 (s.gpr this 7)
  let s := env.record_cr0 this result s
  let s := s.set_gpr this 7 result
  -- MSR (SRR1)
  let s := s.set_gpr this 11 0xf072
  let s := s.set_cr this ((s.gpr this 11 &&& 0x0fff0000) ||| ((s.cpu this).cr &&& 0xf000ffff))
  -- Enter nanokernel
  let s := env.execute this entry s
  if cfg.ASYNC_IRQ then s
  else
    -- Restore program counters and branch registers
    let s := s.set_pc this saved_pc
    let s := s.set_lr this saved_lr
    let s := s.set_ctr this saved_ctr
    s.set_gpr this 1 saved_sp

/-- The method `sheepshaver_cpu::handle_interrupt()`, built with
`INTERRUPTS_IN_NATIVE_MODE` and `INTERRUPTS_IN_EMUL_OP_MODE`. -/
def handle_interrupt (cfg : Config) (env : Env) (this : cpu_id) (s : State) : State :=
  -- Do nothing if interrupts are disabled
  if int32 (host_read32 cfg s.mem cfg.XLM_IRQ_NEST) > 0 then s
  -- Do nothing if there is no interrupt pending
  else if s.InterruptFlags = 0 then s
  else
    -- Disable MacOS stack sniffer
    let s := s.write32 0x110 0
    -- Interrupt action depends on current run mode
    let mode := ReadMacInt32 s.mem cfg.XLM_RUN_MODE
    if mode = cfg.MODE_68K then
      -- 68k emulator active, trigger 68k interrupt level 1
      let s := s.write16 (kernel_data_v cfg s.mem 0x67c) 1
      s.set_cr this ((s.cpu this).cr ||| kernel_data_v cfg s.mem 0x674)
    else if mode = cfg.MODE_NATIVE then
      -- 68k emulator inactive, in nanokernel?
      if s.gpr this 1 ≠ cfg.KernelDataAddr then
        -- Prepare for 68k interrupt level 1
        let s := s.write16 (kernel_data_v cfg s.mem 0x67c) 1
        let s := s.write32 (add32 (kernel_data_v cfg s.mem 0x658) 0xdc)
          (ReadMacInt32 s.mem (add32 (kernel_data_v cfg s.mem 0x658) 0xdc)
            ||| kernel_data_v cfg s.mem 0x674)
        -- Execute nanokernel interrupt routine (this will activate the 68k emulator)
        let s := env.DisableInterrupt s
        let s := cpu_push cfg cpu_id.interrupt_cpu s
        let s :=
          if cfg.ROMType = cfg.ROMTYPE_NEWWORLD then
            interrupt cfg env s.current_cpu (add32 cfg.ROM_BASE 0x312b1c) s
          else
            interrupt cfg env s.current_cpu (add32 cfg.ROM_BASE 0x312a3c) s
        cpu_pop cfg s
      else s
    else if mode = cfg.MODE_EMUL_OP then
      -- 68k emulator active, within EMUL_OP routine
      if ReadMacInt32 s.mem cfg.XLM_68K_R25 &&& 7 = 0 then
        -- Execute full 68k interrupt routine
        let r := env.uninitialized_r
        let old_r25 := ReadMacInt32 s.mem cfg.XLM_68K_R25
        let s := s.write32 cfg.XLM_68K_R25 0x21
        let s := (Execute68k cfg env env.proc r s).1
        s.write32 cfg.XLM_68K_R25 old_r25
      else s
    else s

/-- The bytes of the static 68k routine `proc[]` of `handle_interrupt`. -/
def handle_interrupt_proc (cfg : Config) : List Nat :=
  [0x3f, 0x3c, 0x00, 0x00, 0x48, 0x7a, 0x00, 0x0a, 0x40, 0xe7, 0x20, 0x78, 0x00, 0x064,
   0x4e, 0xd0, cfg.M68K_RTS >>> 8, cfg.M68K_RTS &&& 0xff]

/-! ## Engine lifecycle -/

/-- The function `emul_ppc(entry)`. -/
def emul_ppc (env : Env) (entry : Nat) (s : State) : State :=
  let s := { s with current_cpu := cpu_id.main_cpu }
  env.execute s.current_cpu entry s

/-! ## Fault classifier -/

/-- The result type `sigsegv_return_t` of sigsegv.h. -/
inductive sigsegv_return_t where
  | SIGSEGV_RETURN_SUCCESS
  | SIGSEGV_RETURN_FAILURE
  | SIGSEGV_RETURN_SKIP_INSTRUCTION
  deriving DecidableEq, Repr

/-- Subtraction of two values of the host type `uintptr`. -/
def sub_uintptr (cfg : Config) (a b : Nat) : Nat :=
  (a + (2 ^ cfg.uintptr_bits - b % 2 ^ cfg.uintptr_bits)) % 2 ^ cfg.uintptr_bits

/-- The function `enter_mon()`. -/
def enter_mon (cfg : Config) (s : State) : State :=
  if cfg.ENABLE_MON then s.emit Event.mon else s

/-- The function `dump_registers()`. -/
def dump_registers (s : State) : State :=
  s.emit (Event.dump_registers s.current_cpu)

/-- The function `dump_log()`. -/
def dump_log (s : State) : State :=
  s.emit (Event.dump_log s.current_cpu)

/-- The local `mac_fault` of `sigsegv_handler`: fault in Mac ROM or RAM. -/
def mac_fault (cfg : Config) (pc : Nat) : Bool :=
  decide ((pc ≥ cfg.ROM_BASE ∧ pc < add32 cfg.ROM_BASE cfg.ROM_AREA_SIZE)
    ∨ (pc ≥ cfg.RAMBase ∧ pc < add32 cfg.RAMBase cfg.RAMSize))

/-- The fatal tail of `sigsegv_handler`: report, dump, monitor, quit. -/
def sigsegv_fatal (cfg : Config) (fault_address fault_instruction : Nat) (s : State) :
    State × sigsegv_return_t :=
  let s := s.emit (Event.printf "SIGSEGV\n")
  let s := s.emit (Event.printf_p "  pc %p\n" fault_instruction)
  let s := s.emit (Event.printf_p "  ea %p\n" fault_address)
  let s := s.emit (Event.printf_s " cpu %s\n"
    (if s.current_cpu = cpu_id.main_cpu then "main" else "interrupts"))
  let s := dump_registers s
  let s := s.emit (Event.dump_log s.current_cpu)
  let s := enter_mon cfg s
  let s := s.emit Event.QuitEmulator
  (s, sigsegv_return_t.SIGSEGV_RETURN_FAILURE)

/-- The function `sigsegv_handler(fault_address, fault_instruction)`, built
with `HAVE_SIGSEGV_SKIP_INSTRUCTION`. -/
def sigsegv_handler (cfg : Config) (env : Env) (fault_address fault_instruction : Nat)
    (s : State) : State × sigsegv_return_t :=
  -- Handle screen fault
  if cfg.ENABLE_VOSF = true ∧ env.Screen_fault_handler fault_address fault_instruction s = true then
    (s, sigsegv_return_t.SIGSEGV_RETURN_SUCCESS)
  else
    let addr := fault_address
    -- Ignore writes to ROM
    if sub_uintptr cfg addr cfg.ROM_BASE < cfg.ROM_SIZE then
      (s, sigsegv_return_t.SIGSEGV_RETURN_SKIP_INSTRUCTION)
    else
      -- Get program counter of target CPU
      let cpu := s.current_cpu
      let pc := (s.cpu cpu).pc
      -- Fault in Mac ROM or RAM?
      if mac_fault cfg pc = true then
        -- "VM settings" during MacOS 8 installation
        if pc = add32 cfg.ROM_BASE 0x488160 ∧ s.gpr cpu 20 = 0xf8000000 then
          (s, sigsegv_return_t.SIGSEGV_RETURN_SKIP_INSTRUCTION)
        -- MacOS 8.5 installation
        else if pc = add32 cfg.ROM_BASE 0x488140 ∧ s.gpr cpu 16 = 0xf8000000 then
          (s, sigsegv_return_t.SIGSEGV_RETURN_SKIP_INSTRUCTION)
        -- MacOS 8 serial drivers on startup
        else if pc = add32 cfg.ROM_BASE 0x48e080
            ∧ (s.gpr cpu 8 = 0xf3012002 ∨ s.gpr cpu 8 = 0xf3012000) then
          (s, sigsegv_return_t.SIGSEGV_RETURN_SKIP_INSTRUCTION)
        -- MacOS 8.1 serial drivers on startup
        else if pc = add32 cfg.ROM_BASE 0x48c5e0
            ∧ (s.gpr cpu 20 = 0xf3012002 ∨ s.gpr cpu 20 = 0xf3012000) then
          (s, sigsegv_return_t.SIGSEGV_RETURN_SKIP_INSTRUCTION)
        else if pc = add32 cfg.ROM_BASE 0x4a10a0
            ∧ (s.gpr cpu 20 = 0xf3012002 ∨ s.gpr cpu 20 = 0xf3012000) then
          (s, sigsegv_return_t.SIGSEGV_RETURN_SKIP_INSTRUCTION)
        -- Ignore all other faults, if requested
        else if env.PrefsFindBool "ignoresegv" = true then
          (s, sigsegv_return_t.SIGSEGV_RETURN_SKIP_INSTRUCTION)
        else sigsegv_fatal cfg fault_address fault_instruction s
      else sigsegv_fatal cfg fault_address fault_instruction s

/-- The decision of the fault classifier in the words of its description:
skip when the fault address lies in the ROM image, or when the guest PC lies
in the ROM area or in guest RAM and either a known probe matches or the
preference ignoresegv is set. -/
def fault_classifier_skips (cfg : Config) (ignoresegv : Bool) (fault_address pc : Nat)
    (gpr : Nat → Nat) : Prop :=
  (cfg.ROM_BASE ≤ fault_address ∧ fault_address < cfg.ROM_BASE + cfg.ROM_SIZE) ∨
  (((cfg.ROM_BASE ≤ pc ∧ pc < cfg.ROM_BASE + cfg.ROM_AREA_SIZE) ∨
      (cfg.RAMBase ≤ pc ∧ pc < cfg.RAMBase + cfg.RAMSize)) ∧
    ((sub32 pc cfg.ROM_BASE = 0x488160 ∧ gpr 20 = 0xf8000000) ∨
      (sub32 pc cfg.ROM_BASE = 0x488140 ∧ gpr 16 = 0xf8000000) ∨
      (sub32 pc cfg.ROM_BASE = 0x48e080 ∧ (gpr 8 = 0xf3012002 ∨ gpr 8 = 0xf3012000)) ∨
      ((sub32 pc cfg.ROM_BASE = 0x48c5e0 ∨ sub32 pc cfg.ROM_BASE = 0x4a10a0) ∧
        (gpr 20 = 0xf3012002 ∨ gpr 20 = 0xf3012000)) ∨
      ignoresegv = true))

/-! ## Concrete inputs used to evaluate the code -/

/-- A configuration with the customary SheepShaver values: run modes 0, 1, 2,
the low-memory globals at 0x28xx, kernel data at 0x68ffe000, a little-endian
single-engine build, selectors numbered in table order. -/
def sample_config : Config where
  XLM_RUN_MODE := 0x2810
  XLM_68K_R25 := 0x2814
  XLM_IRQ_NEST := 0x2818
  XLM_EXEC_RETURN_OPCODE := 0x284c
  MODE_68K := 0
  MODE_NATIVE := 1
  MODE_EMUL_OP := 2
  KERNEL_DATA_BASE := 0x68ffe000
  KernelDataAddr := 0x68ffe000
  KernelData_ed := 0x1000
  CR_SO_field_2_mask := 0x00100000
  SPCFLAG_CPU_EXEC_RETURN := 1
  SheepStack1Base := 0x70000000
  ROM_BASE := 0x40800000
  ROMType := 0
  ROMTYPE_NEWWORLD := 4
  M68K_RTS := 0x4e75
  XLM_GET_RESOURCE := 0x2838
  XLM_GET_1_RESOURCE := 0x283c
  XLM_GET_IND_RESOURCE := 0x2840
  XLM_GET_1_IND_RESOURCE := 0x2844
  XLM_R_GET_RESOURCE := 0x2848
  WORDS_BIGENDIAN := false
  ASYNC_IRQ := false
  NATIVE_PATCH_NAME_REGISTRY := 0
  NATIVE_VIDEO_INSTALL_ACCEL := 1
  NATIVE_VIDEO_VBL := 2
  NATIVE_VIDEO_DO_DRIVER_IO := 3
  NATIVE_ETHER_IRQ := 4
  NATIVE_ETHER_INIT := 5
  NATIVE_ETHER_TERM := 6
  NATIVE_ETHER_OPEN := 7
  NATIVE_ETHER_CLOSE := 8
  NATIVE_ETHER_WPUT := 9
  NATIVE_ETHER_RSRV := 10
  NATIVE_SERIAL_NOTHING := 11
  NATIVE_SERIAL_OPEN := 12
  NATIVE_SERIAL_PRIME_IN := 13
  NATIVE_SERIAL_PRIME_OUT := 14
  NATIVE_SERIAL_CONTROL := 15
  NATIVE_SERIAL_STATUS := 16
  NATIVE_SERIAL_CLOSE := 17
  NATIVE_GET_RESOURCE := 18
  NATIVE_GET_1_RESOURCE := 19
  NATIVE_GET_IND_RESOURCE := 20
  NATIVE_GET_1_IND_RESOURCE := 21
  NATIVE_R_GET_RESOURCE := 22
  NATIVE_DISABLE_INTERRUPT := 23
  NATIVE_ENABLE_INTERRUPT := 24
  NATIVE_MAKE_EXECUTABLE := 25
  ROM_SIZE := 0x400000
  ROM_AREA_SIZE := 0x500000
  RAMBase := 0x20000000
  RAMSize := 0x8000000
  uintptr_bits := 32
  ENABLE_VOSF := true
  ENABLE_MON := false

/-- The snapshot with every 68k register zero. -/
def zero_M68kRegisters : M68kRegisters := { d := fun _ => 0, a := fun _ => 0 }

/-- The register file with every register zero. -/
def zero_registers : powerpc_registers :=
  { gpr := fun _ => 0, fpr := fun _ => 0, pc := 0, lr := 0, ctr := 0, cr := 0, xer := 0,
    spcflags := 0 }

/-- An environment whose hooks all return at once and change nothing, around
the given PowerPC core. -/
def sample_env (core : cpu_id → Nat → State → State) : Env where
  execute := core
  trampoline := 0x7ffff000
  record_cr0 := fun _ _ s => s
  op_ppc_rlwimi := fun _ _ _ ra => ra
  EmulOp := fun r _ _ s => (s, r)
  proc := 0x7fffe000
  uninitialized_r := zero_M68kRegisters
  new_cpu := zero_registers
  DisableInterrupt := fun s => s
  EnableInterrupt := fun s => s
  DoPatchNameRegistry := fun s => s
  VideoInstallAccel := fun s => s
  VideoVBL := fun s => s
  VideoDoDriverIO := fun _ _ _ _ _ s => (s, 0)
  EtherIRQ := fun s => s
  InitStreamModule := fun _ s => (s, 0)
  TerminateStreamModule := fun s => s
  ether_open := fun _ _ _ _ _ s => (s, 0)
  ether_close := fun _ _ _ s => (s, 0)
  ether_wput := fun _ _ s => (s, 0)
  ether_rsrv := fun _ s => (s, 0)
  SerialNothing := fun _ _ s => (s, 0)
  SerialOpen := fun _ _ s => (s, 0)
  SerialPrimeIn := fun _ _ s => (s, 0)
  SerialPrimeOut := fun _ _ s => (s, 0)
  SerialControl := fun _ _ s => (s, 0)
  SerialStatus := fun _ _ s => (s, 0)
  SerialClose := fun _ _ s => (s, 0)
  MakeExecutable := fun _ _ _ s => s
  check_load_invoc := fun _ _ _ s => s
  Screen_fault_handler := fun _ _ _ => false
  PrefsFindBool := fun _ => false

/-- A core run that returns at once: the guest routine is a bare return
through the EXEC_RETURN trampoline and touches no register. -/
def core_returns : cpu_id → Nat → State → State := fun _ _ s => s

/-- A core run of a guest routine that returns the value 42 in GPR3: the core
starts at `entry`, the routine loads GPR3 and counts CTR down from 1, and the
run ends on the trampoline LR points at. -/
def core_returns_42 : cpu_id → Nat → State → State := fun c _ s =>
  ((s.set_gpr c 3 42).set_ctr c 1).set_pc c (s.cpu c).lr

/-- The state with every register of both engines zero, guest memory zero
except the run-mode word, which holds `mode`, the stack pointer of both
engines at 0x1000. -/
def sample_state (cfg : Config) (mode : Nat) : State :=
  { cpu := fun _ => { zero_registers with gpr := store (fun _ => 0) 1 0x1000 }
    current_cpu := cpu_id.main_cpu
    mem := WriteMacInt32 (fun _ => 0) cfg.XLM_RUN_MODE mode
    InterruptFlags := 0
    log := [] }

/-- A state with an interrupt pending: as `sample_state`, with
`InterruptFlags` 1, the stack-sniffer word at 0x110 holding 0x12345678, the
disable counter holding `nest` in host byte order and GPR1 of both engines
holding `sp`. -/
def sample_interrupt_state (cfg : Config) (mode nest sp : Nat) : State :=
  { cpu := fun _ => { zero_registers with gpr := store (fun _ => 0) 1 sp }
    current_cpu := cpu_id.main_cpu
    mem := WriteMacInt32 (WriteMacInt32 (WriteMacInt32 (fun _ => 0) cfg.XLM_RUN_MODE mode)
      0x110 0x12345678) cfg.XLM_IRQ_NEST (tswap32 cfg nest)
    InterruptFlags := 1
    log := [] }

/-- A state at a fault: as `sample_state`, with PC and GPR20 of the main
engine as given. -/
def sample_fault_state (cfg : Config) (pc gpr20 : Nat) : State :=
  ((sample_state cfg cfg.MODE_NATIVE).set_pc cpu_id.main_cpu pc).set_gpr cpu_id.main_cpu 20 gpr20

theorem store_same (a : Nat → Nat) (i v : Nat) : store a i v i = v := by
  simp [store]

theorem store_other (a : Nat → Nat) (i v j : Nat) (h : j ≠ i) : store a i v j = a j := by
  simp [store, h]

theorem loop_store_other (n : Nat) (g f : Nat → Nat) (a : Nat → Nat) (j : Nat)
    (h : ∀ i, i < n → g i ≠ j) :
    loop n (fun i a => store a (g i) (f i)) a j = a j := by
  induction n with
  | zero => rfl
  | succ n ih =>
    have h1 : j ≠ g n := fun e => h n (Nat.lt_succ_self n) e.symm
    have h2 : ∀ i, i < n → g i ≠ j := fun i hi => h i (Nat.lt_succ_of_lt hi)
    simp only [loop]
    rw [store_other _ _ _ _ h1]
    exact ih h2

theorem loop_store_at (n : Nat) (g f : Nat → Nat) (a : Nat → Nat) (k : Nat) (hk : k < n)
    (hinj : ∀ i, i < n → g i = g k → i = k) :
    loop n (fun i a => store a (g i) (f i)) a (g k) = f k := by
  induction n with
  | zero => omega
  | succ n ih =>
    simp only [loop]
    by_cases hkn : k = n
    · subst hkn
      exact store_same _ _ _
    · have hlt : k < n := by omega
      have hne : g k ≠ g n := by
        intro e
        have := hinj n (Nat.lt_succ_self n) e.symm
        omega
      rw [store_other _ _ _ _ hne]
      exact ih hlt (fun i hi e => hinj i (Nat.lt_succ_of_lt hi) e)

namespace State

theorem set_cpu_cpu_same (s : State) (c : cpu_id) (r : powerpc_registers) :
    (s.set_cpu c r).cpu c = r := by
  simp [set_cpu]

theorem set_cpu_cpu_other (s : State) (c k : cpu_id) (r : powerpc_registers) (h : k ≠ c) :
    (s.set_cpu c r).cpu k = s.cpu k := by
  simp [set_cpu, h]

theorem set_cpu_set_cpu (s : State) (c : cpu_id) (r1 r2 : powerpc_registers) :
    (s.set_cpu c r1).set_cpu c r2 = s.set_cpu c r2 := by
  simp only [set_cpu]
  congr 1
  funext k
  by_cases h : k = c <;> simp [h]

theorem set_cpu_self (s : State) (c : cpu_id) : s.set_cpu c (s.cpu c) = s := by
  cases s with
  | mk cpu cur mem fl log =>
    simp only [set_cpu]
    congr 1
    funext k
    by_cases h : k = c <;> simp [h]

/-- A loop of register stores on one engine is one update of its GPR bank. -/
theorem loop_set_gpr (n : Nat) (g f : Nat → Nat) (c : cpu_id) (s : State) :
    loop n (fun i s => s.set_gpr c (g i) (f i)) s
      = s.set_cpu c { s.cpu c with gpr := loop n (fun i a => store a (g i) (f i)) (s.cpu c).gpr } := by
  induction n with
  | zero => exact (set_cpu_self s c).symm
  | succ n ih =>
    simp only [loop]
    rw [ih]
    simp only [set_gpr, set_cpu_cpu_same, set_cpu_set_cpu]

/-- A loop of register stores on one engine is one update of its FPR bank. -/
theorem loop_set_fpr (n : Nat) (g f : Nat → Nat) (c : cpu_id) (s : State) :
    loop n (fun i s => s.set_fpr c (g i) (f i)) s
      = s.set_cpu c { s.cpu c with fpr := loop n (fun i a => store a (g i) (f i)) (s.cpu c).fpr } := by
  induction n with
  | zero => exact (set_cpu_self s c).symm
  | succ n ih =>
    simp only [loop]
    rw [ih]
    simp only [set_fpr, set_cpu_cpu_same, set_cpu_set_cpu]

end State

theorem loop_store_range (n b : Nat) (f : Nat → Nat) (a : Nat → Nat) (j : Nat) :
    loop n (fun i a => store a (b + i) (f i)) a j
      = if b ≤ j ∧ j < b + n then f (j - b) else a j := by
  by_cases h : b ≤ j ∧ j < b + n
  · rw [if_pos h]
    have e : j = b + (j - b) := by omega
    have key := loop_store_at n (fun i => b + i) f a (j - b) (by omega)
      (by intro i _ e; simpa using e)
    simp only at key
    rw [← e] at key
    exact key
  · rw [if_neg h]
    exact loop_store_other n (fun i => b + i) f a j (by intro i hi e; simp only at e; omega)

theorem loop_store_id (n : Nat) (f : Nat → Nat) (a : Nat → Nat) (j : Nat) :
    loop n (fun i a => store a i (f i)) a j = if j < n then f j else a j := by
  have key := loop_store_range n 0 f a j
  simp only [Nat.zero_add, Nat.zero_le, true_and, Nat.sub_zero] at key
  exact key

theorem loop_store_succ (n b : Nat) (f : Nat → Nat) (a : Nat → Nat) (j : Nat) :
    loop n (fun i a => store a (i + b) (f i)) a j
      = if b ≤ j ∧ j < b + n then f (j - b) else a j := by
  have e : (fun i (a : Nat → Nat) => store a (i + b) (f i))
      = (fun i (a : Nat → Nat) => store a (b + i) (f i)) := by
    funext i a
    rw [Nat.add_comm]
  rw [e]
  exact loop_store_range n b f a j

/-- A loop of stores into `d[]` is one update of the bank `d`. -/
theorem loop_set_d (n : Nat) (g f : Nat → Nat) (r : M68kRegisters) :
    loop n (fun i (r : M68kRegisters) => { r with d := store r.d (g i) (f i) }) r
      = { r with d := loop n (fun i a => store a (g i) (f i)) r.d } := by
  induction n with
  | zero => rfl
  | succ n ih =>
    simp only [loop]
    rw [ih]

/-- A loop of stores into `a[]` is one update of the bank `a`. -/
theorem loop_set_a (n : Nat) (g f : Nat → Nat) (r : M68kRegisters) :
    loop n (fun i (r : M68kRegisters) => { r with a := store r.a (g i) (f i) }) r
      = { r with a := loop n (fun i a => store a (g i) (f i)) r.a } := by
  induction n with
  | zero => rfl
  | succ n ih =>
    simp only [loop]
    rw [ih]

/-! ## Guest memory: a load after a store -/

theorem ReadMacInt32_WriteMacInt32 (mem : Nat → Nat) (addr v : Nat) :
    ReadMacInt32 (WriteMacInt32 mem addr v) addr = v % 4294967296 := by
  simp only [ReadMacInt32, WriteMacInt32]
  simp only [if_true, Nat.add_right_eq_self, OfNat.ofNat_ne_zero, if_false,
    Nat.add_left_cancel_iff, Nat.succ_ne_self, reduceCtorEq]
  norm_num
  omega

namespace State

theorem set_cpu_mem (s : State) (c : cpu_id) (r : powerpc_registers) :
    (s.set_cpu c r).mem = s.mem := rfl

theorem set_cpu_log (s : State) (c : cpu_id) (r : powerpc_registers) :
    (s.set_cpu c r).log = s.log := rfl

theorem set_cpu_current_cpu (s : State) (c : cpu_id) (r : powerpc_registers) :
    (s.set_cpu c r).current_cpu = s.current_cpu := rfl

theorem set_cpu_InterruptFlags (s : State) (c : cpu_id) (r : powerpc_registers) :
    (s.set_cpu c r).InterruptFlags = s.InterruptFlags := rfl

theorem emit_cpu (s : State) (e : Event) : (s.emit e).cpu = s.cpu := rfl

theorem emit_mem (s : State) (e : Event) : (s.emit e).mem = s.mem := rfl

end State

/-- The safety check of `execute_68k` leaves the engines alone. -/
theorem safety_check_cpu (c : Prop) [Decidable c] (s : State) (e : Event) :
    (if c then s.emit e else s).cpu = s.cpu := by
  split <;> rfl

/-- The safety check of `execute_68k` leaves guest memory alone. -/
theorem safety_check_mem (c : Prop) [Decidable c] (s : State) (e : Event) :
    (if c then s.emit e else s).mem = s.mem := by
  split <;> rfl

/-! ## The trampoline `execute_68k` -/

/-- The method `execute_68k` is its epilogue applied to what the nested
`execute` call returns, with the locals saved by the prologue. -/
theorem execute_68k_eq (cfg : Config) (env : Env) (this : cpu_id) (entry : Nat)
    (r : M68kRegisters) (s : State) :
    execute_68k cfg env this entry r s =
      (let s0 := if ReadMacInt32 s.mem cfg.XLM_RUN_MODE ≠ cfg.MODE_EMUL_OP then
          s.emit (Event.printf "FATAL: Execute68k() not called from EMUL_OP mode\n")
        else s
       let s1 := s0.set_gpr this 1 (sub32 (s0.gpr this 1) 56)
       let s1 := s1.write32 (s1.gpr this 1) (s0.gpr this 1)
       execute_68k_leave cfg this r (s0.cpu this).pc (s0.cpu this).lr (s0.cpu this).ctr
         (s0.cpu this).cr
         (loop 19 (fun i a => store a i (s1.gpr this (13 + i))) (fun _ => 0))
         (loop 18 (fun i a => store a i (s1.fpr this (14 + i))) (fun _ => 0))
         (execute_68k_nested cfg env this entry r s)) := rfl

/-- What the epilogue of `execute_68k` does to the registers of its engine. -/
theorem execute_68k_leave_regs (cfg : Config) (this : cpu_id) (r : M68kRegisters)
    (saved_pc saved_lr saved_ctr saved_cr : Nat) (saved_GPRs saved_FPRs : Nat → Nat)
    (t : State) :
    let res := (execute_68k_leave cfg this r saved_pc saved_lr saved_ctr saved_cr
      saved_GPRs saved_FPRs t).1
    (res.cpu this).pc = saved_pc ∧ (res.cpu this).lr = saved_lr ∧
    (res.cpu this).ctr = saved_ctr ∧ (res.cpu this).cr = saved_cr ∧
    (res.cpu this).xer = (t.cpu this).xer ∧
    (res.cpu this).spcflags = (t.cpu this).spcflags ∧
    (∀ j, 13 ≤ j → j ≤ 31 → res.gpr this j = saved_GPRs (j - 13)) ∧
    (∀ j, 14 ≤ j → j ≤ 31 → res.fpr this j = saved_FPRs (j - 14)) ∧
    (∀ j, j < 13 → j ≠ 1 → res.gpr this j = t.gpr this j) ∧
    (∀ j, j < 14 → res.fpr this j = t.fpr this j) ∧
    res.gpr this 1 = add32 (t.gpr this 1) 56 := by
  intro res
  simp only [res, execute_68k_leave, State.loop_set_gpr, State.loop_set_fpr]
  simp only [State.set_pc, State.set_lr, State.set_ctr, State.set_cr, State.set_gpr,
    State.gpr, State.fpr, State.write32, State.set_cpu_cpu_same, State.set_cpu_set_cpu]
  refine ⟨trivial, trivial, trivial, trivial, trivial, trivial, ?_, ?_, ?_, ?_, ?_⟩
  · intro j h1 h2
    rw [store_other _ _ _ _ (by omega), loop_store_range, if_pos (by omega)]
  · intro j h1 h2
    rw [loop_store_range, if_pos (by omega)]
  · intro j h1 h2
    rw [store_other _ _ _ _ h2, loop_store_range, if_neg (by omega)]
  · intro j h1
    rw [loop_store_range, if_neg (by omega)]
  · rw [store_same, loop_store_range, if_neg (by omega)]

/-- What the epilogue of `execute_68k` writes back to the snapshot, to guest
memory and to the record of outside calls. -/
theorem execute_68k_leave_snapshot (cfg : Config) (this : cpu_id) (r : M68kRegisters)
    (saved_pc saved_lr saved_ctr saved_cr : Nat) (saved_GPRs saved_FPRs : Nat → Nat)
    (t : State) :
    let res := execute_68k_leave cfg this r saved_pc saved_lr saved_ctr saved_cr
      saved_GPRs saved_FPRs t
    (∀ i, i < 8 → res.2.d i = t.gpr this (8 + i)) ∧
    (∀ i, i < 7 → res.2.a i = t.gpr this (16 + i)) ∧
    res.2.a 7 = r.a 7 ∧
    res.1.mem = WriteMacInt32 (WriteMacInt32 t.mem cfg.XLM_68K_R25 (t.gpr this 25))
      cfg.XLM_RUN_MODE cfg.MODE_EMUL_OP ∧
    res.1.log = t.log ∧ res.1.current_cpu = t.current_cpu ∧
    res.1.InterruptFlags = t.InterruptFlags ∧
    (∀ k, k ≠ this → res.1.cpu k = t.cpu k) := by
  intro res
  simp only [res, execute_68k_leave, State.loop_set_gpr, State.loop_set_fpr, loop_set_d,
    loop_set_a]
  simp only [State.set_pc, State.set_lr, State.set_ctr, State.set_cr, State.set_gpr,
    State.gpr, State.fpr, State.write32, State.set_cpu_cpu_same, State.set_cpu_set_cpu,
    State.set_cpu_mem, State.set_cpu_log, State.set_cpu_current_cpu,
    State.set_cpu_InterruptFlags]
  refine ⟨?_, ?_, ?_, trivial, trivial, trivial, trivial, ?_⟩
  · intro i hi
    rw [loop_store_id, if_pos hi]
  · intro i hi
    rw [loop_store_id, if_pos hi]
  · rw [loop_store_id, if_neg (by omega)]
  · intro k hk
    rw [State.set_cpu_cpu_other _ _ _ _ hk]

/-- What `execute_68k` returns, in terms of the entry state `s` and of the
state `t` its nested `execute` call hands back. -/
theorem execute_68k_spec (cfg : Config) (env : Env) (this : cpu_id) (entry : Nat)
    (r : M68kRegisters) (s : State) :
    let t := execute_68k_nested cfg env this entry r s
    let res := execute_68k cfg env this entry r s
    ((res.1.cpu this).pc = (s.cpu this).pc ∧ (res.1.cpu this).lr = (s.cpu this).lr ∧
      (res.1.cpu this).ctr = (s.cpu this).ctr ∧ (res.1.cpu this).cr = (s.cpu this).cr) ∧
    ((res.1.cpu this).xer = (t.cpu this).xer ∧
      (res.1.cpu this).spcflags = (t.cpu this).spcflags) ∧
    (∀ j, 13 ≤ j → j ≤ 31 → res.1.gpr this j = s.gpr this j) ∧
    (∀ j, 14 ≤ j → j ≤ 31 → res.1.fpr this j = s.fpr this j) ∧
    (∀ j, j < 13 → j ≠ 1 → res.1.gpr this j = t.gpr this j) ∧
    (∀ j, j < 14 → res.1.fpr this j = t.fpr this j) ∧
    res.1.gpr this 1 = add32 (t.gpr this 1) 56 ∧
    (∀ i, i < 8 → res.2.d i = t.gpr this (8 + i)) ∧
    (∀ i, i < 7 → res.2.a i = t.gpr this (16 + i)) ∧
    res.2.a 7 = r.a 7 ∧
    res.1.mem = WriteMacInt32 (WriteMacInt32 t.mem cfg.XLM_68K_R25 (t.gpr this 25))
      cfg.XLM_RUN_MODE cfg.MODE_EMUL_OP ∧
    res.1.log = t.log := by
  intro t res
  have hres : res = execute_68k cfg env this entry r s := rfl
  rw [execute_68k_eq] at hres
  simp only at hres
  obtain ⟨h1, h2, h3, h4, hx, hf, h5, h6, h7, h8, h9⟩ := execute_68k_leave_regs cfg this r
    ((if ReadMacInt32 s.mem cfg.XLM_RUN_MODE ≠ cfg.MODE_EMUL_OP then
          s.emit (Event.printf "FATAL: Execute68k() not called from EMUL_OP mode\n")
        else s).cpu this).pc _ _ _ _ _ (execute_68k_nested cfg env this entry r s)
  obtain ⟨g1, g2, g3, g4, g5, -, -, -⟩ := execute_68k_leave_snapshot cfg this r
    ((if ReadMacInt32 s.mem cfg.XLM_RUN_MODE ≠ cfg.MODE_EMUL_OP then
          s.emit (Event.printf "FATAL: Execute68k() not called from EMUL_OP mode\n")
        else s).cpu this).pc _ _ _ _ _ (execute_68k_nested cfg env this entry r s)
  rw [← hres] at h1 h2 h3 h4 hx hf h5 h6 h7 h8 h9 g1 g2 g3 g4 g5
  simp only [safety_check_cpu] at h1 h2 h3 h4
  refine ⟨⟨h1, h2, h3, h4⟩, ⟨hx, hf⟩, ?_, ?_, h7, h8, h9, g1, g2, g3, g4, g5⟩
  · intro j hj1 hj2
    rw [h5 j hj1 hj2, loop_store_id, if_pos (by omega)]
    simp only [State.set_gpr, State.gpr, State.write32, State.set_cpu_cpu_same, safety_check_cpu]
    rw [store_other _ _ _ _ (by omega)]
    congr 1
    omega
  · intro j hj1 hj2
    rw [h6 j hj1 hj2, loop_store_id, if_pos (by omega)]
    simp only [State.set_gpr, State.fpr, State.write32, State.set_cpu_cpu_same, safety_check_cpu]
    congr 1
    omega

/-- The state in which `execute_68k` enters the nested `execute`: the 68k
registers are loaded, GPR0 is zero and the run-mode word holds MODE_68K. -/
theorem execute_68k_enter_spec (cfg : Config) (this : cpu_id) (entry : Nat)
    (r : M68kRegisters) (s : State) :
    let e := execute_68k_enter cfg this entry r s
    e.gpr this 0 = 0 ∧
    (∀ i, i < 8 → e.gpr this (8 + i) = r.d i) ∧
    (∀ i, i < 7 → e.gpr this (16 + i) = r.a i) ∧
    (∀ j, 2 ≤ j → j ≤ 7 → e.gpr this j = s.gpr this j) ∧
    e.gpr this 1 = sub32 (sub32 (s.gpr this 1) 56) 4 ∧
    (e.cpu this).cr = cfg.CR_SO_field_2_mask ∧
    ReadMacInt32 e.mem cfg.XLM_RUN_MODE = cfg.MODE_68K % 4294967296 := by
  intro e
  simp only [e, execute_68k_enter, State.loop_set_gpr]
  simp only [State.set_pc, State.set_lr, State.set_ctr, State.set_cr, State.set_gpr,
    State.gpr, State.fpr, State.write32, State.set_cpu_cpu_same, State.set_cpu_set_cpu,
    State.set_cpu_mem, safety_check_cpu, safety_check_mem]
  refine ⟨?_, ?_, ?_, ?_, ?_, trivial, ?_⟩
  · simp (disch := omega) only [store_same, store_other]
  · intro i hi
    simp (disch := omega) only [store_same, store_other, loop_store_range, if_pos, if_neg,
      Nat.add_sub_cancel_left]
  · intro i hi
    simp (disch := omega) only [store_same, store_other, loop_store_range, if_pos, if_neg,
      Nat.add_sub_cancel_left]
  · intro j h1 h2
    simp (disch := omega) only [store_same, store_other, loop_store_range, if_pos, if_neg]
  · simp (disch := omega) only [store_same, store_other, loop_store_range, if_pos, if_neg]
  · exact ReadMacInt32_WriteMacInt32 _ _ _

/-! ## The trampolines `execute_macos_code` and `execute_ppc` -/

/-- The block `regs[]` of `execute_macos_code` holds GPR2 and the argument
registers. -/
theorem execute_macos_code_regs (n : Nat) (g : Nat → Nat) (k : Nat) (hk : k ≤ n) :
    loop n (fun i regs => store regs (i + 1) (g (i + 3))) (store (fun _ => 0) 0 (g 2)) k
      = g (k + 2) := by
  rw [loop_store_succ]
  by_cases h : 1 ≤ k ∧ k < 1 + n
  · rw [if_pos h]
    congr 1
    omega
  · rw [if_neg h]
    have hk0 : k = 0 := by omega
    subst hk0
    exact store_same _ _ _

/-- What `execute_macos_code` returns, in terms of the entry state `s`, of the
state `s_in` it hands to the nested `execute` and of the state `s_out` it gets
back. -/
theorem execute_macos_code_spec (env : Env) (this : cpu_id) (tvect nargs : Nat)
    (args : Nat → Nat) (s : State) :
    let s_in := execute_macos_code_enter env this tvect nargs args s
    let s_out := env.execute this (ReadMacInt32 s.mem tvect) s_in
    let res := execute_macos_code env this tvect nargs args s
    ((res.1.cpu this).pc = (s.cpu this).pc ∧ (res.1.cpu this).lr = (s.cpu this).lr ∧
      (res.1.cpu this).ctr = (s.cpu this).ctr) ∧
    (∀ j, 2 ≤ j → j ≤ 2 + nargs → res.1.gpr this j = s.gpr this j) ∧
    (∀ j, 2 + nargs < j → res.1.gpr this j = s_out.gpr this j) ∧
    res.1.gpr this 0 = s_out.gpr this 0 ∧
    res.1.gpr this 1 = add32 (s_out.gpr this 1) 64 ∧
    res.2 = s_out.gpr this 3 ∧
    (s_in.gpr this 2 = ReadMacInt32 s.mem (add32 tvect 4) ∧
      (∀ i, i < nargs → s_in.gpr this (3 + i) = args i) ∧
      s_in.gpr this 1 = sub32 (s.gpr this 1) 64 ∧
      (s_in.cpu this).lr = env.trampoline ∧
      (∀ j, 2 + nargs < j → s_in.gpr this j = s.gpr this j)) := by
  intro s_in s_out res
  have hout : s_out = env.execute this (ReadMacInt32 s.mem tvect) s_in := rfl
  have hin : s_in = execute_macos_code_enter env this tvect nargs args s := rfl
  have hres : res = execute_macos_code env this tvect nargs args s := rfl
  have hres2 : res =
      ((((((loop (nargs + 1) (fun i t => t.set_gpr this (i + 2)
          (loop nargs (fun i regs => store regs (i + 1) (s.gpr this (i + 3)))
            (store (fun _ => 0) 0 (s.gpr this 2)) i)) s_out).set_gpr this 1
        (add32 ((loop (nargs + 1) (fun i t => t.set_gpr this (i + 2)
          (loop nargs (fun i regs => store regs (i + 1) (s.gpr this (i + 3)))
            (store (fun _ => 0) 0 (s.gpr this 2)) i)) s_out).gpr this 1) 64)).set_pc this
        (s.cpu this).pc).set_lr this (s.cpu this).lr).set_ctr this (s.cpu this).ctr),
        s_out.gpr this 3) := by
    rw [hres, hout, hin]
    simp only [execute_macos_code, execute_macos_code_enter, State.set_lr, State.set_gpr,
      State.gpr, State.set_cpu_cpu_same, State.set_cpu_mem]
    simp (disch := omega) only [store_other]
  rw [hres2]
  simp only [State.loop_set_gpr]
  simp only [State.set_pc, State.set_lr, State.set_ctr, State.set_gpr, State.gpr,
    State.set_cpu_cpu_same, State.set_cpu_set_cpu]
  refine ⟨⟨trivial, trivial, trivial⟩, ?_, ?_, ?_, ?_, trivial, ?_⟩
  · intro j h1 h2
    rw [store_other _ _ _ _ (by omega), loop_store_succ, if_pos (by omega)]
    rw [execute_macos_code_regs nargs _ (j - 2) (by omega)]
    congr 1
    omega
  · intro j h1
    rw [store_other _ _ _ _ (by omega), loop_store_succ, if_neg (by omega)]
  · rw [store_other _ _ _ _ (by omega), loop_store_succ, if_neg (by omega)]
  · rw [store_same, loop_store_succ, if_neg (by omega)]
  · rw [hin]
    simp only [execute_macos_code_enter, State.loop_set_gpr]
    simp only [State.set_pc, State.set_lr, State.set_ctr, State.set_gpr, State.gpr,
      State.set_cpu_cpu_same, State.set_cpu_set_cpu, State.set_cpu_mem]
    refine ⟨?_, ?_, ?_, trivial, ?_⟩
    · simp (disch := omega) only [store_same, store_other, loop_store_succ, if_neg]
    · intro i hi
      simp (disch := omega) only [store_same, store_other, loop_store_succ, if_pos,
        Nat.add_sub_cancel_left]
    · simp (disch := omega) only [store_same, store_other, loop_store_succ, if_neg]
    · intro j hj
      simp (disch := omega) only [store_same, store_other, loop_store_succ, if_neg]

/-! ## Claims on the context-saving trampolines -/

/-- C1. For every entry address, every 68k register snapshot and every
behaviour of the nested core `execute` call, when `execute_68k` returns, PC,
LR, CTR, CR, GPR13..GPR31 and FPR14..FPR31 of its engine are equal to their
values at the moment `execute_68k` was called. -/
theorem execute_68k_preserves_context (cfg : Config) (env : Env) (this : cpu_id) (entry : Nat)
    (r : M68kRegisters) (s : State) :
    ((execute_68k cfg env this entry r s).1.cpu this).pc = (s.cpu this).pc ∧
    ((execute_68k cfg env this entry r s).1.cpu this).lr = (s.cpu this).lr ∧
    ((execute_68k cfg env this entry r s).1.cpu this).ctr = (s.cpu this).ctr ∧
    ((execute_68k cfg env this entry r s).1.cpu this).cr = (s.cpu this).cr ∧
    (∀ j, 13 ≤ j → j ≤ 31 →
      (execute_68k cfg env this entry r s).1.gpr this j = s.gpr this j) ∧
    (∀ j, 14 ≤ j → j ≤ 31 →
      (execute_68k cfg env this entry r s).1.fpr this j = s.fpr this j) := by
  obtain ⟨⟨h1, h2, h3, h4⟩, -, h5, h6, -⟩ := execute_68k_spec cfg env this entry r s
  exact ⟨h1, h2, h3, h4, h5, h6⟩

/-- Witness of C1: GPR20 across a nested run that returns 42 in GPR3. -/
theorem execute_68k_preserves_context_witness :
    (13 ≤ 20 ∧ 20 ≤ 31) ∧
    (execute_68k sample_config (sample_env core_returns_42) cpu_id.main_cpu 0x2000
        zero_M68kRegisters (sample_state sample_config 2)).1.gpr cpu_id.main_cpu 20
      = (sample_state sample_config 2).gpr cpu_id.main_cpu 20 :=
  ⟨by decide, (execute_68k_preserves_context sample_config (sample_env core_returns_42)
    cpu_id.main_cpu 0x2000 zero_M68kRegisters (sample_state sample_config 2)).2.2.2.2.1 20
    (by decide) (by decide)⟩

/-- C2. For every nargs in 0..7, every tvect and args and every behaviour of
the nested core `execute` call, when `execute_macos_code` returns, PC, LR,
CTR, GPR2 and GPR3..GPR(2+nargs) equal their values at entry, and the returned
value is the content of GPR3 at the moment the nested `execute` returned;
during the nested call GPR2 holds the word at tvect+4 and GPR(3+i) holds
args[i]. -/
theorem execute_macos_code_frame (env : Env) (this : cpu_id) (tvect nargs : Nat)
    (args : Nat → Nat) (s : State) (hn : nargs ≤ 7) :
    ((execute_macos_code env this tvect nargs args s).1.cpu this).pc = (s.cpu this).pc ∧
    ((execute_macos_code env this tvect nargs args s).1.cpu this).lr = (s.cpu this).lr ∧
    ((execute_macos_code env this tvect nargs args s).1.cpu this).ctr = (s.cpu this).ctr ∧
    (∀ j, 2 ≤ j → j ≤ 2 + nargs →
      (execute_macos_code env this tvect nargs args s).1.gpr this j = s.gpr this j) ∧
    (execute_macos_code env this tvect nargs args s).2
      = (env.execute this (ReadMacInt32 s.mem tvect)
          (execute_macos_code_enter env this tvect nargs args s)).gpr this 3 ∧
    (execute_macos_code_enter env this tvect nargs args s).gpr this 2
      = ReadMacInt32 s.mem (add32 tvect 4) ∧
    (∀ i, i < nargs →
      (execute_macos_code_enter env this tvect nargs args s).gpr this (3 + i) = args i) := by
  have _ := hn
  obtain ⟨⟨h1, h2, h3⟩, h4, -, -, -, h5, h6, h7, -⟩ :=
    execute_macos_code_spec env this tvect nargs args s
  exact ⟨h1, h2, h3, h4, h5, h6, h7⟩

/-- Witness of C2: a call with two arguments; GPR4 is back on return. -/
theorem execute_macos_code_frame_witness :
    (2 ≤ 7 ∧ 2 ≤ 4 ∧ 4 ≤ 2 + 2) ∧
    (execute_macos_code (sample_env core_returns_42) cpu_id.main_cpu 0x3000 2
        (fun i => i + 10) (sample_state sample_config 2)).1.gpr cpu_id.main_cpu 4
      = (sample_state sample_config 2).gpr cpu_id.main_cpu 4 :=
  ⟨by decide, (execute_macos_code_frame (sample_env core_returns_42) cpu_id.main_cpu 0x3000 2
    (fun i => i + 10) (sample_state sample_config 2) (by decide)).2.2.2.1 4
    (by decide) (by decide)⟩

/-- Counterexample to C3 as stated: a guest routine that counts CTR down and
returns through the trampoline leaves PC on the trampoline and CTR changed. -/
theorem execute_ppc_pc_ctr_counterexample :
    ¬ (((execute_ppc (sample_env core_returns_42) cpu_id.main_cpu 0x100
          (sample_state sample_config 2)).cpu cpu_id.main_cpu).pc
        = ((sample_state sample_config 2).cpu cpu_id.main_cpu).pc ∧
      ((execute_ppc (sample_env core_returns_42) cpu_id.main_cpu 0x100
          (sample_state sample_config 2)).cpu cpu_id.main_cpu).lr
        = ((sample_state sample_config 2).cpu cpu_id.main_cpu).lr ∧
      ((execute_ppc (sample_env core_returns_42) cpu_id.main_cpu 0x100
          (sample_state sample_config 2)).cpu cpu_id.main_cpu).ctr
        = ((sample_state sample_config 2).cpu cpu_id.main_cpu).ctr) := by
  decide

/-- C3, amended. For every entry address and every behaviour of the nested
core `execute` call, when `execute_ppc` returns, LR is equal to its value at
the moment `execute_ppc` was called; the nested call runs with LR on the
trampoline, and PC, CTR and every GPR are returned as the nested call left
them (only LR is saved). -/
theorem execute_ppc_restores_lr (env : Env) (this : cpu_id) (entry : Nat) (s : State) :
    ((execute_ppc env this entry s).cpu this).lr = (s.cpu this).lr ∧
    ((execute_ppc env this entry s).cpu this).pc
      = ((env.execute this entry (s.set_lr this env.trampoline)).cpu this).pc ∧
    ((execute_ppc env this entry s).cpu this).ctr
      = ((env.execute this entry (s.set_lr this env.trampoline)).cpu this).ctr ∧
    (∀ j, (execute_ppc env this entry s).gpr this j
      = (env.execute this entry (s.set_lr this env.trampoline)).gpr this j) ∧
    ((s.set_lr this env.trampoline).cpu this).lr = env.trampoline := by
  simp only [execute_ppc, State.set_lr, State.gpr, State.set_cpu_cpu_same]
  exact ⟨trivial, trivial, trivial, fun _ => trivial, trivial⟩

/-- Counterexample to C4 as stated: `execute_68k` entered from an EMUL_OP
handler with GPR0 = 5 returns with GPR0 = 0, although the nested run touched
no register. -/
theorem execute_68k_gpr0_counterexample :
    (execute_68k sample_config (sample_env core_returns) cpu_id.main_cpu 0x2000
        zero_M68kRegisters
        ((sample_state sample_config 2).set_gpr cpu_id.main_cpu 0 5)).1.gpr cpu_id.main_cpu 0
      ≠ ((sample_state sample_config 2).set_gpr cpu_id.main_cpu 0 5).gpr cpu_id.main_cpu 0 := by
  decide

/-- C4, amended. On return from `execute_68k`, GPR23..GPR31 have the values
they had at entry. GPR0 and GPR2..GPR7 are not saved: `execute_68k` zeroes
GPR0 and hands GPR2..GPR7 unchanged to the nested `execute`, and on return
GPR0, GPR2..GPR7, FPR0..FPR13 and XER hold what the nested `execute` left
in them. -/
theorem execute_68k_unmapped_registers (cfg : Config) (env : Env) (this : cpu_id)
    (entry : Nat) (r : M68kRegisters) (s : State) :
    (∀ j, 23 ≤ j → j ≤ 31 →
      (execute_68k cfg env this entry r s).1.gpr this j = s.gpr this j) ∧
    (execute_68k_enter cfg this entry r s).gpr this 0 = 0 ∧
    (∀ j, 2 ≤ j → j ≤ 7 → (execute_68k_enter cfg this entry r s).gpr this j = s.gpr this j) ∧
    (execute_68k cfg env this entry r s).1.gpr this 0
      = (execute_68k_nested cfg env this entry r s).gpr this 0 ∧
    (∀ j, 2 ≤ j → j ≤ 7 →
      (execute_68k cfg env this entry r s).1.gpr this j
        = (execute_68k_nested cfg env this entry r s).gpr this j) ∧
    (∀ j, j < 14 →
      (execute_68k cfg env this entry r s).1.fpr this j
        = (execute_68k_nested cfg env this entry r s).fpr this j) ∧
    ((execute_68k cfg env this entry r s).1.cpu this).xer
      = ((execute_68k_nested cfg env this entry r s).cpu this).xer := by
  obtain ⟨-, ⟨hx, -⟩, h5, -, h7, h8, -⟩ := execute_68k_spec cfg env this entry r s
  obtain ⟨e0, -, -, e2, -⟩ := execute_68k_enter_spec cfg this entry r s
  exact ⟨fun j h1 h2 => h5 j (by omega) h2, e0, e2, h7 0 (by omega) (by omega),
    fun j h1 h2 => h7 j (by omega) (by omega), h8, hx⟩

/-- Witness of C4, amended: GPR23 and GPR4 across a nested run that returns 42
in GPR3. -/
theorem execute_68k_unmapped_registers_witness :
    (23 ≤ 23 ∧ 23 ≤ 31) ∧
    (execute_68k sample_config (sample_env core_returns_42) cpu_id.main_cpu 0x2000
        zero_M68kRegisters (sample_state sample_config 2)).1.gpr cpu_id.main_cpu 23
      = (sample_state sample_config 2).gpr cpu_id.main_cpu 23 :=
  ⟨by decide, (execute_68k_unmapped_registers sample_config (sample_env core_returns_42)
    cpu_id.main_cpu 0x2000 zero_M68kRegisters (sample_state sample_config 2)).1 23
    (by decide) (by decide)⟩

/-- Counterexample to C5 as stated: with GPR13 = 7 at entry and a nested run
that touches no register, `execute_68k` writes d[5] = 0 back to the snapshot
and returns with GPR13 = 7. -/
theorem execute_68k_gpr13_counterexample :
    (execute_68k sample_config (sample_env core_returns) cpu_id.main_cpu 0x2000
        zero_M68kRegisters
        ((sample_state sample_config 2).set_gpr cpu_id.main_cpu 13 7)).1.gpr
        cpu_id.main_cpu (8 + 5)
      ≠ (execute_68k sample_config (sample_env core_returns) cpu_id.main_cpu 0x2000
        zero_M68kRegisters
        ((sample_state sample_config 2).set_gpr cpu_id.main_cpu 13 7)).2.d 5 := by
  decide

/-- C5, amended. `execute_68k` writes back to the snapshot the 68k registers
as the nested `execute` left them: d[i] is GPR(8+i) and a[i] is GPR(16+i) at
the moment the nested `execute` returned (a[7] is not written). On return
GPR8..GPR12 still hold d[0]..d[4] as written back; GPR13..GPR22 do not: they
have been restored to their values at entry. -/
theorem execute_68k_writes_back_snapshot (cfg : Config) (env : Env) (this : cpu_id)
    (entry : Nat) (r : M68kRegisters) (s : State) :
    (∀ i, i < 8 → (execute_68k cfg env this entry r s).2.d i
      = (execute_68k_nested cfg env this entry r s).gpr this (8 + i)) ∧
    (∀ i, i < 7 → (execute_68k cfg env this entry r s).2.a i
      = (execute_68k_nested cfg env this entry r s).gpr this (16 + i)) ∧
    (execute_68k cfg env this entry r s).2.a 7 = r.a 7 ∧
    (∀ i, i < 5 → (execute_68k cfg env this entry r s).1.gpr this (8 + i)
      = (execute_68k cfg env this entry r s).2.d i) ∧
    (∀ j, 13 ≤ j → j ≤ 22 →
      (execute_68k cfg env this entry r s).1.gpr this j = s.gpr this j) := by
  obtain ⟨-, -, h5, -, h7, -, -, g1, g2, g3, -⟩ := execute_68k_spec cfg env this entry r s
  refine ⟨g1, g2, g3, ?_, fun j h1 h2 => h5 j h1 (by omega)⟩
  intro i hi
  rw [g1 i (by omega)]
  exact h7 (8 + i) (by omega) (by omega)

/-- Witness of C5, amended: d[0] after a nested run that touches no register. -/
theorem execute_68k_writes_back_snapshot_witness :
    0 < 8 ∧
    (execute_68k sample_config (sample_env core_returns) cpu_id.main_cpu 0x2000
        zero_M68kRegisters (sample_state sample_config 2)).2.d 0
      = (execute_68k_nested sample_config (sample_env core_returns) cpu_id.main_cpu 0x2000
        zero_M68kRegisters (sample_state sample_config 2)).gpr cpu_id.main_cpu (8 + 0) :=
  ⟨by decide, (execute_68k_writes_back_snapshot sample_config (sample_env core_returns)
    cpu_id.main_cpu 0x2000 zero_M68kRegisters (sample_state sample_config 2)).1 0 (by decide)⟩

/-- Counterexample to C6 as stated: called with nargs == 0 around a guest
routine that returns 42 in GPR3, `execute_macos_code` returns with GPR3 = 42
and not with the entry value 0. -/
theorem execute_macos_code_nargs0_counterexample :
    ¬ ((execute_macos_code (sample_env core_returns_42) cpu_id.main_cpu 0x3000 0
          (fun _ => 0) (sample_state sample_config 2)).1.gpr cpu_id.main_cpu 2
        = (sample_state sample_config 2).gpr cpu_id.main_cpu 2 ∧
      (execute_macos_code (sample_env core_returns_42) cpu_id.main_cpu 0x3000 0
          (fun _ => 0) (sample_state sample_config 2)).1.gpr cpu_id.main_cpu 3
        = (sample_state sample_config 2).gpr cpu_id.main_cpu 3) := by
  decide

/-- C6, amended. For every tvect and every behaviour of the nested core
`execute` call: called with nargs == 0, `execute_macos_code` returns with
GPR2 equal to its value at entry, while GPR3 is not saved and holds what the
nested call left in it, which is also the returned value; called with
nargs == 7 it runs the nested call with GPR3..GPR9 set to args[0..6] and
returns with GPR2 and GPR3..GPR9 all equal to their values at entry. -/
theorem execute_macos_code_boundary (env : Env) (this : cpu_id) (tvect : Nat)
    (args : Nat → Nat) (s : State) :
    ((execute_macos_code env this tvect 0 args s).1.gpr this 2 = s.gpr this 2 ∧
      (execute_macos_code env this tvect 0 args s).1.gpr this 3
        = (env.execute this (ReadMacInt32 s.mem tvect)
            (execute_macos_code_enter env this tvect 0 args s)).gpr this 3 ∧
      (execute_macos_code env this tvect 0 args s).2
        = (execute_macos_code env this tvect 0 args s).1.gpr this 3) ∧
    ((∀ i, i < 7 →
        (execute_macos_code_enter env this tvect 7 args s).gpr this (3 + i) = args i) ∧
      (∀ j, 2 ≤ j → j ≤ 9 →
        (execute_macos_code env this tvect 7 args s).1.gpr this j = s.gpr this j)) := by
  obtain ⟨-, a4, a5, -, -, a6, -⟩ := execute_macos_code_spec env this tvect 0 args s
  obtain ⟨-, b4, -, -, -, -, -, b7, -⟩ := execute_macos_code_spec env this tvect 7 args s
  refine ⟨⟨a4 2 (by omega) (by omega), a5 3 (by omega), ?_⟩, b7, b4⟩
  rw [a6, a5 3 (by omega)]

/-- Witness of C6, amended: seven arguments; GPR9 carries args[6] into the
nested call. -/
theorem execute_macos_code_boundary_witness :
    6 < 7 ∧
    (execute_macos_code_enter (sample_env core_returns_42) cpu_id.main_cpu 0x3000 7
        (fun i => i + 10) (sample_state sample_config 2)).gpr cpu_id.main_cpu (3 + 6)
      = (fun i => i + 10) 6 :=
  ⟨by decide, (execute_macos_code_boundary (sample_env core_returns_42) cpu_id.main_cpu 0x3000
    (fun i => i + 10) (sample_state sample_config 2)).2.1 6 (by decide)⟩

/-- C8, the code at a failing input. `execute_68k` is called while the
run-mode word holds MODE_68K. The code prints its FATAL message and carries
on: the record of outside calls holds the message and no `QuitEmulator`, the
nested run has taken place (its result 42 is in GPR3) and the run-mode word
has been changed to MODE_EMUL_OP. -/
theorem execute_68k_outside_EMUL_OP_mode :
    ReadMacInt32 (sample_state sample_config 0).mem sample_config.XLM_RUN_MODE
      ≠ sample_config.MODE_EMUL_OP ∧
    (execute_68k sample_config (sample_env core_returns_42) cpu_id.main_cpu 0x2000
        zero_M68kRegisters (sample_state sample_config 0)).1.log
      = [Event.printf "FATAL: Execute68k() not called from EMUL_OP mode\n"] ∧
    (execute_68k sample_config (sample_env core_returns_42) cpu_id.main_cpu 0x2000
        zero_M68kRegisters (sample_state sample_config 0)).1.gpr cpu_id.main_cpu 3 = 42 ∧
    ReadMacInt32 (execute_68k sample_config (sample_env core_returns_42) cpu_id.main_cpu 0x2000
        zero_M68kRegisters (sample_state sample_config 0)).1.mem sample_config.XLM_RUN_MODE
      = sample_config.MODE_EMUL_OP := by
  decide

/-! ## Marshalling of the 68k register snapshot -/

/-- The snapshot `marshal_68k` builds: d[i] = GPR(8+i), a[i] = GPR(16+i) for
i < 7, a[7] = GPR1. -/
theorem marshal_68k_spec (this : cpu_id) (s : State) (r0 : M68kRegisters) :
    (∀ i, i < 8 → (marshal_68k this s r0).d i = s.gpr this (8 + i)) ∧
    (∀ i, i < 7 → (marshal_68k this s r0).a i = s.gpr this (16 + i)) ∧
    (marshal_68k this s r0).a 7 = s.gpr this 1 := by
  simp only [marshal_68k, loop_set_d, loop_set_a]
  refine ⟨?_, ?_, ?_⟩
  · intro i hi
    rw [loop_store_id, if_pos hi]
  · intro i hi
    rw [store_other _ _ _ _ (by omega), loop_store_id, if_pos hi]
  · exact store_same _ _ _

/-- The registers `unmarshal_68k` writes: GPR(8+i) = d[i], GPR(16+i) = a[i] for
i < 7, GPR1 = a[7]; nothing else changes. -/
theorem unmarshal_68k_spec (this : cpu_id) (r68 : M68kRegisters) (s : State) :
    (∀ i, i < 8 → (unmarshal_68k this r68 s).gpr this (8 + i) = r68.d i) ∧
    (∀ i, i < 7 → (unmarshal_68k this r68 s).gpr this (16 + i) = r68.a i) ∧
    (unmarshal_68k this r68 s).gpr this 1 = r68.a 7 ∧
    (∀ j, j ≠ 1 → (j < 8 ∨ 23 ≤ j) → (unmarshal_68k this r68 s).gpr this j = s.gpr this j) ∧
    unmarshal_68k this r68 s
      = s.set_cpu this
          { s.cpu this with gpr := fun n => (unmarshal_68k this r68 s).gpr this n } := by
  simp only [unmarshal_68k, State.loop_set_gpr]
  simp only [State.set_gpr, State.gpr, State.set_cpu_cpu_same, State.set_cpu_set_cpu]
  refine ⟨?_, ?_, ?_, ?_, trivial⟩
  · intro i hi
    simp (disch := omega) only [store_other, loop_store_range, if_pos, if_neg,
      Nat.add_sub_cancel_left]
  · intro i hi
    simp (disch := omega) only [store_other, loop_store_range, if_pos, if_neg,
      Nat.add_sub_cancel_left]
  · exact store_same _ _ _
  · intro j h1 h2
    simp (disch := omega) only [store_other, loop_store_range, if_pos, if_neg]

/-- The EMUL_OP form of `execute_sheep`: the code run when the low six bits of
the opcode are 3 or more. -/
theorem execute_sheep_EMUL_OP (cfg : Config) (env : Env) (this : cpu_id) (opcode : Nat)
    (s : State) (h : 3 ≤ opcode &&& 0x3f) :
    execute_sheep cfg env this opcode s =
      (let res := env.EmulOp (execute_sheep_enter cfg env this s).2 (s.gpr this 24)
        (int32 (sub32 (EMUL_OP_field_extract opcode) 3)) (execute_sheep_enter cfg env this s).1
       let t := unmarshal_68k this res.2 res.1
       let t := t.write32 cfg.XLM_RUN_MODE cfg.MODE_68K
       t.set_pc this (add32 (t.cpu this).pc 4)) := by
  unfold execute_sheep
  rw [if_neg (by omega), if_neg (by omega), if_neg (by omega)]
  rfl

/-- C9. Marshal-then-unmarshal of the 68k register snapshot is the identity:
for every register file, copying GPR8..GPR15 to d0..d7, GPR16..GPR22 to a0..a6
and GPR1 to a7 and then copying the snapshot back yields the original value of
every GPR, indeed the original state, and this is what `execute_sheep` does
around an EMUL_OP dispatcher that leaves state and snapshot untouched;
conversely unmarshal-then-marshal returns the original 16-field snapshot. -/
theorem marshal_unmarshal_identity (cfg : Config) (env : Env) (this : cpu_id) (s : State)
    (r r0 : M68kRegisters) (opcode : Nat) (hop : 3 ≤ opcode &&& 0x3f)
    (hid : ∀ r68 pc sel t, env.EmulOp r68 pc sel t = (t, r68)) :
    (∀ n, (unmarshal_68k this (marshal_68k this s r0) s).gpr this n = s.gpr this n) ∧
    unmarshal_68k this (marshal_68k this s r0) s = s ∧
    (∀ n, (execute_sheep cfg env this opcode s).gpr this n = s.gpr this n) ∧
    (∀ i, i < 8 → (marshal_68k this (unmarshal_68k this r s) r0).d i = r.d i) ∧
    (∀ i, i < 8 → (marshal_68k this (unmarshal_68k this r s) r0).a i = r.a i) := by
  have key : ∀ (t : State) (q : M68kRegisters) (n : Nat),
      (unmarshal_68k this (marshal_68k this t q) t).gpr this n = t.gpr this n := by
    intro t q n
    obtain ⟨m1, m2, m3⟩ := marshal_68k_spec this t q
    obtain ⟨u1, u2, u3, u4, -⟩ := unmarshal_68k_spec this (marshal_68k this t q) t
    by_cases h1 : n = 1
    · subst h1
      rw [u3, m3]
    · by_cases h2 : n < 8 ∨ 23 ≤ n
      · exact u4 n h1 h2
      · by_cases h3 : n < 16
        · have e : n = 8 + (n - 8) := by omega
          rw [e, u1 (n - 8) (by omega), m1 (n - 8) (by omega)]
        · have e : n = 16 + (n - 16) := by omega
          rw [e, u2 (n - 16) (by omega), m2 (n - 16) (by omega)]
  have full : ∀ (t : State) (q : M68kRegisters),
      unmarshal_68k this (marshal_68k this t q) t = t := by
    intro t q
    obtain ⟨-, -, -, -, u5⟩ := unmarshal_68k_spec this (marshal_68k this t q) t
    rw [u5]
    have e : (fun n => (unmarshal_68k this (marshal_68k this t q) t).gpr this n)
        = (t.cpu this).gpr := by
      funext n
      exact key t q n
    rw [e]
    exact State.set_cpu_self t this
  refine ⟨key s r0, full s r0, ?_, ?_, ?_⟩
  · intro n
    rw [execute_sheep_EMUL_OP cfg env this opcode s hop]
    simp only [hid, execute_sheep_enter, full]
    simp only [State.set_pc, State.gpr, State.write32, State.set_cpu_cpu_same]
  · intro i hi
    obtain ⟨m1, -, -⟩ := marshal_68k_spec this (unmarshal_68k this r s) r0
    obtain ⟨u1, -, -, -, -⟩ := unmarshal_68k_spec this r s
    rw [m1 i hi, u1 i hi]
  · intro i hi
    obtain ⟨-, m2, m3⟩ := marshal_68k_spec this (unmarshal_68k this r s) r0
    obtain ⟨-, u2, u3, -, -⟩ := unmarshal_68k_spec this r s
    by_cases h7 : i = 7
    · subst h7
      rw [m3, u3]
    · rw [m2 i (by omega), u2 i (by omega)]

/-- Witness of C9: the EMUL_OP opcode with sub-function 3 around a dispatcher
that changes nothing. -/
theorem marshal_unmarshal_identity_witness :
    (3 ≤ (POWERPC_EMUL_OP ||| 3) &&& 0x3f ∧ 5 < 8) ∧
    (marshal_68k cpu_id.main_cpu
        (unmarshal_68k cpu_id.main_cpu zero_M68kRegisters (sample_state sample_config 0))
        zero_M68kRegisters).d 5 = zero_M68kRegisters.d 5 :=
  ⟨by decide, (marshal_unmarshal_identity sample_config (sample_env core_returns)
    cpu_id.main_cpu (sample_state sample_config 0) zero_M68kRegisters zero_M68kRegisters
    (POWERPC_EMUL_OP ||| 3) (by decide) (fun _ _ _ _ => rfl)).2.2.2.1 5 (by decide)⟩

/-! ## The run-mode word -/

set_option maxRecDepth 100000 in
/-- Decoding of every NativeOp word, checked on all 64 of them. -/
theorem POWERPC_NATIVE_OP_word_decode : ∀ b, b < 2 → ∀ k, k < 32 →
    POWERPC_NATIVE_OP_word b k = (POWERPC_EMUL_OP ||| (b <<< 11) ||| (k <<< 6) ||| 2) ∧
    (POWERPC_NATIVE_OP_word b k >>> 26) &&& 0x3f = 6 ∧
    POWERPC_NATIVE_OP_word b k &&& 0x3f = 2 ∧
    EMUL_OP_field_extract (POWERPC_NATIVE_OP_word b k) = 2 ∧
    NATIVE_OP_field_extract (POWERPC_NATIVE_OP_word b k) = k ∧
    FN_field_extract (POWERPC_NATIVE_OP_word b k) = b ∧
    FN_field_test (POWERPC_NATIVE_OP_word b k) = decide (b = 1) ∧
    uint32 (uint32 (POWERPC_NATIVE_OP_word b k)) = POWERPC_NATIVE_OP_word b k ∧
    bswap_32 (bswap_32 (POWERPC_NATIVE_OP_word b k)) = POWERPC_NATIVE_OP_word b k := by
  decide

set_option maxRecDepth 100000 in
/-- Decoding of the base opcode with every sub-function, checked on all 64. -/
theorem POWERPC_EMUL_OP_decode : ∀ s, s < 64 →
    ((POWERPC_EMUL_OP ||| s) >>> 26) &&& 0x3f = 6 ∧ (POWERPC_EMUL_OP ||| s) &&& 0x3f = s ∧
    EMUL_OP_field_extract (POWERPC_EMUL_OP ||| s) = s := by
  decide

/-- The guest reads a table entry back as the word it was built from. -/
theorem tswap32_POWERPC_NATIVE_OP_INIT (cfg : Config) (b k : Nat) (hb : b < 2) (hk : k < 32) :
    tswap32 cfg (POWERPC_NATIVE_OP_INIT cfg b k) = POWERPC_NATIVE_OP_word b k := by
  obtain ⟨-, -, -, -, -, -, -, h1, h2⟩ := POWERPC_NATIVE_OP_word_decode b hb k hk
  unfold POWERPC_NATIVE_OP_INIT tswap32
  split
  · exact h1
  · exact h2

/-- Every LR bit in the initialiser of `NativeOpTable` is 0 or 1. -/
theorem NativeOpTable_init_LR (cfg : Config) : ∀ p ∈ NativeOpTable_init cfg, p.1 < 2 := by
  intro p hp
  have h1 : p.1 ∈ (NativeOpTable_init cfg).map Prod.fst := List.mem_map_of_mem _ hp
  have h2 : ∀ x ∈ (NativeOpTable_init cfg).map Prod.fst, x < 2 := by
    simp [NativeOpTable_init]
  exact h2 _ h1

/-- C10. Synthetic-opcode encode/decode round trip: for every selector k < 32
and every LR-bit b in {0,1}, the word of `POWERPC_NATIVE_OP_INIT(b, k)` before
byte swapping is base | b<<11 | k<<6 | 2 and decodes with primary field 6,
low six bits (`EMUL_OP_field`) 2, `NATIVE_OP_field` k and `FN_field` b, and the
byte-swapped table entry reads back as that word; for every sub-function
s < 64 the word base | s has primary field 6 and low six bits s; and every
entry of `NativeOpTable` decodes to sub-function 2 with the selector and the
LR bit it was built from. -/
theorem synthetic_opcode_roundtrip (cfg : Config)
    (hsel : ∀ p ∈ NativeOpTable_init cfg, p.2 < 32) :
    (∀ b k, b < 2 → k < 32 →
      POWERPC_NATIVE_OP_word b k = (POWERPC_EMUL_OP ||| (b <<< 11) ||| (k <<< 6) ||| 2) ∧
      tswap32 cfg (POWERPC_NATIVE_OP_INIT cfg b k) = POWERPC_NATIVE_OP_word b k ∧
      (POWERPC_NATIVE_OP_word b k >>> 26) &&& 0x3f = 6 ∧
      POWERPC_NATIVE_OP_word b k &&& 0x3f = 2 ∧
      EMUL_OP_field_extract (POWERPC_NATIVE_OP_word b k) = 2 ∧
      NATIVE_OP_field_extract (POWERPC_NATIVE_OP_word b k) = k ∧
      FN_field_extract (POWERPC_NATIVE_OP_word b k) = b ∧
      FN_field_test (POWERPC_NATIVE_OP_word b k) = decide (b = 1)) ∧
    (∀ s, s < 64 →
      ((POWERPC_EMUL_OP ||| s) >>> 26) &&& 0x3f = 6 ∧ (POWERPC_EMUL_OP ||| s) &&& 0x3f = s ∧
      EMUL_OP_field_extract (POWERPC_EMUL_OP ||| s) = s) ∧
    (∀ e ∈ NativeOpTable cfg, ∃ p ∈ NativeOpTable_init cfg,
      e = POWERPC_NATIVE_OP_INIT cfg p.1 p.2 ∧
      (tswap32 cfg e >>> 26) &&& 0x3f = 6 ∧
      EMUL_OP_field_extract (tswap32 cfg e) = 2 ∧
      NATIVE_OP_field_extract (tswap32 cfg e) = p.2 ∧
      FN_field_extract (tswap32 cfg e) = p.1) := by
  refine ⟨?_, POWERPC_EMUL_OP_decode, ?_⟩
  · intro b k hb hk
    obtain ⟨d1, d2, d3, d4, d5, d6, d7, -, -⟩ := POWERPC_NATIVE_OP_word_decode b hb k hk
    exact ⟨d1, tswap32_POWERPC_NATIVE_OP_INIT cfg b k hb hk, d2, d3, d4, d5, d6, d7⟩
  · intro e he
    obtain ⟨p, hp, rfl⟩ := List.mem_map.mp he
    have hb := NativeOpTable_init_LR cfg p hp
    have hk := hsel p hp
    obtain ⟨-, d2, -, d4, d5, d6, -, -, -⟩ := POWERPC_NATIVE_OP_word_decode p.1 hb p.2 hk
    refine ⟨p, hp, rfl, ?_, ?_, ?_, ?_⟩
    · rw [tswap32_POWERPC_NATIVE_OP_INIT cfg p.1 p.2 hb hk]
      exact d2
    · rw [tswap32_POWERPC_NATIVE_OP_INIT cfg p.1 p.2 hb hk]
      exact d4
    · rw [tswap32_POWERPC_NATIVE_OP_INIT cfg p.1 p.2 hb hk]
      exact d5
    · rw [tswap32_POWERPC_NATIVE_OP_INIT cfg p.1 p.2 hb hk]
      exact d6

/-- Witness of C10: the selectors numbered in table order, all below 32; the
NativeOp word with LR bit 1 and selector 2 decodes to selector 2. -/
theorem synthetic_opcode_roundtrip_witness :
    ((∀ p ∈ NativeOpTable_init sample_config, p.2 < 32) ∧ 1 < 2 ∧ 2 < 32) ∧
    NATIVE_OP_field_extract (POWERPC_NATIVE_OP_word 1 2) = 2 :=
  ⟨by decide, ((synthetic_opcode_roundtrip sample_config (by decide)).1 1 2
    (by decide) (by decide)).2.2.2.2.2.1⟩

/-! ## The interrupt gate -/

/-- A host-order load yields a 32-bit value. -/
theorem host_read32_lt (cfg : Config) (mem : Nat → Nat) (addr : Nat) :
    host_read32 cfg mem addr < 4294967296 := by
  unfold host_read32 tswap32
  split
  · unfold uint32
    omega
  · unfold bswap_32
    omega

/-- Counterexample to C11 as stated: the disable counter holds 0x80000000,
which is greater than 0 as an unsigned value, an interrupt is pending, and
`handle_interrupt` clears the stack-sniffer word at 0x110. -/
theorem handle_interrupt_unsigned_gate_counterexample :
    0 < host_read32 sample_config
        (sample_interrupt_state sample_config 1 0x80000000 0x68ffe000).mem
        sample_config.XLM_IRQ_NEST ∧
    ReadMacInt32 (handle_interrupt sample_config (sample_env core_returns) cpu_id.main_cpu
        (sample_interrupt_state sample_config 1 0x80000000 0x68ffe000)).mem 0x110
      ≠ ReadMacInt32 (sample_interrupt_state sample_config 1 0x80000000 0x68ffe000).mem
        0x110 := by
  decide

/-- C11, amended. Interrupt-disable gate: for every state in which the
interrupt-disable nesting counter, taken as a signed 32-bit value in host
byte order, is greater than 0 (as an unsigned value: from 1 to 0x7fffffff),
or in which the device-signalled `InterruptFlags` bitmask is 0,
`handle_interrupt` returns the state it was given: no PPC register, no
guest-memory word, not the disable counter and not the current engine has
changed. -/
theorem handle_interrupt_gate (cfg : Config) (env : Env) (this : cpu_id) (s : State) :
    (int32 (host_read32 cfg s.mem cfg.XLM_IRQ_NEST) > 0 ∨ s.InterruptFlags = 0 →
      handle_interrupt cfg env this s = s) ∧
    (0 < host_read32 cfg s.mem cfg.XLM_IRQ_NEST →
      host_read32 cfg s.mem cfg.XLM_IRQ_NEST < 2147483648 →
      handle_interrupt cfg env this s = s) ∧
    (int32 (host_read32 cfg s.mem cfg.XLM_IRQ_NEST) > 0 ↔
      (0 < host_read32 cfg s.mem cfg.XLM_IRQ_NEST ∧
        host_read32 cfg s.mem cfg.XLM_IRQ_NEST < 2147483648)) := by
  have hlt := host_read32_lt cfg s.mem cfg.XLM_IRQ_NEST
  have hiff : int32 (host_read32 cfg s.mem cfg.XLM_IRQ_NEST) > 0 ↔
      (0 < host_read32 cfg s.mem cfg.XLM_IRQ_NEST ∧
        host_read32 cfg s.mem cfg.XLM_IRQ_NEST < 2147483648) := by
    unfold int32
    rw [Nat.mod_eq_of_lt hlt]
    split <;> omega
  have gate : int32 (host_read32 cfg s.mem cfg.XLM_IRQ_NEST) > 0 ∨ s.InterruptFlags = 0 →
      handle_interrupt cfg env this s = s := by
    intro h
    unfold handle_interrupt
    rcases h with h | h
    · rw [if_pos h]
    · by_cases g : int32 (host_read32 cfg s.mem cfg.XLM_IRQ_NEST) > 0
      · rw [if_pos g]
      · rw [if_neg g, if_pos h]
  exact ⟨gate, fun h1 h2 => gate (Or.inl (hiff.mpr ⟨h1, h2⟩)), hiff⟩

/-- Witness of C11, amended: the counter holds 1 and an interrupt is pending. -/
theorem handle_interrupt_gate_witness :
    (int32 (host_read32 sample_config
        (sample_interrupt_state sample_config 1 1 0x1000).mem sample_config.XLM_IRQ_NEST) > 0 ∨
      (sample_interrupt_state sample_config 1 1 0x1000).InterruptFlags = 0) ∧
    handle_interrupt sample_config (sample_env core_returns) cpu_id.main_cpu
        (sample_interrupt_state sample_config 1 1 0x1000)
      = sample_interrupt_state sample_config 1 1 0x1000 :=
  ⟨by decide, (handle_interrupt_gate sample_config (sample_env core_returns) cpu_id.main_cpu
    (sample_interrupt_state sample_config 1 1 0x1000)).1 (by decide)⟩

/-- The unsigned test `(addr - ROM_BASE) < ROM_SIZE` is the range check
`ROM_BASE <= addr < ROM_BASE + ROM_SIZE` when the ROM image lies inside the
address space. -/
theorem sub_uintptr_lt_iff (cfg : Config) (addr : Nat)
    (haddr : addr < 2 ^ cfg.uintptr_bits)
    (hrom : cfg.ROM_BASE + cfg.ROM_SIZE ≤ 2 ^ cfg.uintptr_bits) :
    sub_uintptr cfg addr cfg.ROM_BASE < cfg.ROM_SIZE ↔
      (cfg.ROM_BASE ≤ addr ∧ addr < cfg.ROM_BASE + cfg.ROM_SIZE) := by
  unfold sub_uintptr
  generalize 2 ^ cfg.uintptr_bits = W at haddr hrom
  have hb : cfg.ROM_BASE % W = cfg.ROM_BASE ∨ cfg.ROM_SIZE = 0 := by
    by_cases h : cfg.ROM_BASE < W
    · exact Or.inl (Nat.mod_eq_of_lt h)
    · exact Or.inr (by omega)
  rcases hb with hb | hb
  · rw [hb]
    by_cases h : cfg.ROM_BASE ≤ addr
    · have e : (addr + (W - cfg.ROM_BASE)) % W = addr - cfg.ROM_BASE := by
        have e1 : addr + (W - cfg.ROM_BASE) = (addr - cfg.ROM_BASE) + W := by omega
        rw [e1, Nat.add_mod_right]
        exact Nat.mod_eq_of_lt (by omega)
      rw [e]
      omega
    · have e : (addr + (W - cfg.ROM_BASE)) % W = addr + (W - cfg.ROM_BASE) :=
        Nat.mod_eq_of_lt (by omega)
      rw [e]
      omega
  · rw [hb]
    omega

/-- The test `pc == ROM_BASE + k` in 32-bit arithmetic is `pc - ROM_BASE == k`. -/
theorem add32_eq_iff_sub32 (pc base k : Nat) (hpc : pc < 4294967296)
    (hbase : base < 4294967296) (hk : k < 4294967296) :
    pc = add32 base k ↔ sub32 pc base = k := by
  unfold add32 sub32
  rw [Nat.mod_eq_of_lt hbase]
  omega

/-- The local `mac_fault` is the two range checks when neither range wraps. -/
theorem mac_fault_iff (cfg : Config) (pc : Nat)
    (harea : cfg.ROM_BASE + cfg.ROM_AREA_SIZE < 4294967296)
    (hram : cfg.RAMBase + cfg.RAMSize < 4294967296) :
    mac_fault cfg pc = true ↔
      ((cfg.ROM_BASE ≤ pc ∧ pc < cfg.ROM_BASE + cfg.ROM_AREA_SIZE) ∨
        (cfg.RAMBase ≤ pc ∧ pc < cfg.RAMBase + cfg.RAMSize)) := by
  unfold mac_fault add32
  rw [decide_eq_true_eq, Nat.mod_eq_of_lt harea, Nat.mod_eq_of_lt hram]

theorem sigsegv_fatal_snd (cfg : Config) (fa fi : Nat) (s : State) :
    (sigsegv_fatal cfg fa fi s).2 = sigsegv_return_t.SIGSEGV_RETURN_FAILURE := rfl

/-- The record of outside calls after the fatal tail of `sigsegv_handler`. -/
theorem sigsegv_fatal_log (cfg : Config) (fa fi : Nat) (s : State) :
    Event.QuitEmulator ∈ (sigsegv_fatal cfg fa fi s).1.log ∧
    Event.dump_registers s.current_cpu ∈ (sigsegv_fatal cfg fa fi s).1.log ∧
    Event.dump_log s.current_cpu ∈ (sigsegv_fatal cfg fa fi s).1.log := by
  unfold sigsegv_fatal enter_mon dump_registers
  simp only [State.emit]
  split <;> simp

/-- The decision of `sigsegv_handler` when the screen-fault handler does not
claim the fault, in the terms of the code. -/
theorem sigsegv_handler_cases (cfg : Config) (env : Env) (fa fi : Nat) (s : State)
    (hscreen : ¬ (cfg.ENABLE_VOSF = true ∧ env.Screen_fault_handler fa fi s = true)) :
    (sigsegv_handler cfg env fa fi s
        = (s, sigsegv_return_t.SIGSEGV_RETURN_SKIP_INSTRUCTION) ∧
      (sub_uintptr cfg fa cfg.ROM_BASE < cfg.ROM_SIZE ∨
        (mac_fault cfg (s.cpu s.current_cpu).pc = true ∧
          (((s.cpu s.current_cpu).pc = add32 cfg.ROM_BASE 0x488160
              ∧ s.gpr s.current_cpu 20 = 0xf8000000) ∨
            ((s.cpu s.current_cpu).pc = add32 cfg.ROM_BASE 0x488140
              ∧ s.gpr s.current_cpu 16 = 0xf8000000) ∨
            ((s.cpu s.current_cpu).pc = add32 cfg.ROM_BASE 0x48e080
              ∧ (s.gpr s.current_cpu 8 = 0xf3012002 ∨ s.gpr s.current_cpu 8 = 0xf3012000)) ∨
            ((s.cpu s.current_cpu).pc = add32 cfg.ROM_BASE 0x48c5e0
              ∧ (s.gpr s.current_cpu 20 = 0xf3012002 ∨ s.gpr s.current_cpu 20 = 0xf3012000)) ∨
            ((s.cpu s.current_cpu).pc = add32 cfg.ROM_BASE 0x4a10a0
              ∧ (s.gpr s.current_cpu 20 = 0xf3012002 ∨ s.gpr s.current_cpu 20 = 0xf3012000)) ∨
            env.PrefsFindBool "ignoresegv" = true)))) ∨
    (sigsegv_handler cfg env fa fi s = sigsegv_fatal cfg fa fi s ∧
      ¬ (sub_uintptr cfg fa cfg.ROM_BASE < cfg.ROM_SIZE ∨
        (mac_fault cfg (s.cpu s.current_cpu).pc = true ∧
          (((s.cpu s.current_cpu).pc = add32 cfg.ROM_BASE 0x488160
              ∧ s.gpr s.current_cpu 20 = 0xf8000000) ∨
            ((s.cpu s.current_cpu).pc = add32 cfg.ROM_BASE 0x488140
              ∧ s.gpr s.current_cpu 16 = 0xf8000000) ∨
            ((s.cpu s.current_cpu).pc = add32 cfg.ROM_BASE 0x48e080
              ∧ (s.gpr s.current_cpu 8 = 0xf3012002 ∨ s.gpr s.current_cpu 8 = 0xf3012000)) ∨
            ((s.cpu s.current_cpu).pc = add32 cfg.ROM_BASE 0x48c5e0
              ∧ (s.gpr s.current_cpu 20 = 0xf3012002 ∨ s.gpr s.current_cpu 20 = 0xf3012000)) ∨
            ((s.cpu s.current_cpu).pc = add32 cfg.ROM_BASE 0x4a10a0
              ∧ (s.gpr s.current_cpu 20 = 0xf3012002 ∨ s.gpr s.current_cpu 20 = 0xf3012000)) ∨
            env.PrefsFindBool "ignoresegv" = true)))) := by
  unfold sigsegv_handler
  rw [if_neg hscreen]
  simp only []
  split_ifs with h1 h2 h3 h4 h5 h6 h7 h8
  · exact Or.inl ⟨rfl, Or.inl h1⟩
  · exact Or.inl ⟨rfl, Or.inr ⟨h2, Or.inl h3⟩⟩
  · exact Or.inl ⟨rfl, Or.inr ⟨h2, Or.inr (Or.inl h4)⟩⟩
  · exact Or.inl ⟨rfl, Or.inr ⟨h2, Or.inr (Or.inr (Or.inl h5))⟩⟩
  · exact Or.inl ⟨rfl, Or.inr ⟨h2, Or.inr (Or.inr (Or.inr (Or.inl h6)))⟩⟩
  · exact Or.inl ⟨rfl, Or.inr ⟨h2, Or.inr (Or.inr (Or.inr (Or.inr (Or.inl h7))))⟩⟩
  · exact Or.inl ⟨rfl, Or.inr ⟨h2, Or.inr (Or.inr (Or.inr (Or.inr (Or.inr h8))))⟩⟩
  · refine Or.inr ⟨rfl, ?_⟩
    rintro (a | ⟨-, p | p | p | p | p | p⟩)
    · exact h1 a
    · exact h3 p
    · exact h4 p
    · exact h5 p
    · exact h6 p
    · exact h7 p
    · exact h8 p
  · refine Or.inr ⟨rfl, ?_⟩
    rintro (a | ⟨m, -⟩)
    · exact h1 a
    · exact h2 m

/-- C13. Fault-classifier decision: when the screen-fault handler does not
claim the fault, `sigsegv_handler` returns SKIP_INSTRUCTION if and only if
either the fault address lies in [ROM_BASE, ROM_BASE+ROM_SIZE) (the unsigned
test `(addr - ROM_BASE) < ROM_SIZE` is that range check), or the guest PC lies
in the ROM area or in guest RAM and one of the known probes matches or the
preference ignoresegv is set; a skip leaves the state untouched; in every
other case the handler takes the fatal path (dump, quit, FAILURE). In
particular guest PC = ROM_BASE + 0x488160 with GPR20 = 0xf8000000 yields
SKIP_INSTRUCTION without reaching the dump and quit path. -/
theorem sigsegv_handler_decision (cfg : Config) (env : Env) (fa fi : Nat) (s : State)
    (hscreen : ¬ (cfg.ENABLE_VOSF = true ∧ env.Screen_fault_handler fa fi s = true))
    (haddr : fa < 2 ^ cfg.uintptr_bits)
    (hrom : cfg.ROM_BASE + cfg.ROM_SIZE ≤ 2 ^ cfg.uintptr_bits)
    (hpc : (s.cpu s.current_cpu).pc < 4294967296)
    (harea : cfg.ROM_BASE + cfg.ROM_AREA_SIZE < 4294967296)
    (hram : cfg.RAMBase + cfg.RAMSize < 4294967296) :
    ((sigsegv_handler cfg env fa fi s).2 = sigsegv_return_t.SIGSEGV_RETURN_SKIP_INSTRUCTION ↔
      fault_classifier_skips cfg (env.PrefsFindBool "ignoresegv") fa
        (s.cpu s.current_cpu).pc (s.gpr s.current_cpu)) ∧
    (sub_uintptr cfg fa cfg.ROM_BASE < cfg.ROM_SIZE ↔
      (cfg.ROM_BASE ≤ fa ∧ fa < cfg.ROM_BASE + cfg.ROM_SIZE)) ∧
    ((sigsegv_handler cfg env fa fi s).2 = sigsegv_return_t.SIGSEGV_RETURN_SKIP_INSTRUCTION →
      (sigsegv_handler cfg env fa fi s).1 = s) ∧
    ((sigsegv_handler cfg env fa fi s).2 ≠ sigsegv_return_t.SIGSEGV_RETURN_SKIP_INSTRUCTION →
      (sigsegv_handler cfg env fa fi s).2 = sigsegv_return_t.SIGSEGV_RETURN_FAILURE ∧
      Event.QuitEmulator ∈ (sigsegv_handler cfg env fa fi s).1.log ∧
      Event.dump_registers s.current_cpu ∈ (sigsegv_handler cfg env fa fi s).1.log ∧
      Event.dump_log s.current_cpu ∈ (sigsegv_handler cfg env fa fi s).1.log) ∧
    ((s.cpu s.current_cpu).pc = cfg.ROM_BASE + 0x488160 → s.gpr s.current_cpu 20 = 0xf8000000 →
      0x488160 < cfg.ROM_AREA_SIZE →
      sigsegv_handler cfg env fa fi s
        = (s, sigsegv_return_t.SIGSEGV_RETURN_SKIP_INSTRUCTION)) := by
  have hA := sub_uintptr_lt_iff cfg fa haddr hrom
  have hM := mac_fault_iff cfg (s.cpu s.current_cpu).pc harea hram
  have hP : ∀ k, k < 4294967296 →
      ((s.cpu s.current_cpu).pc = add32 cfg.ROM_BASE k ↔
        sub32 (s.cpu s.current_cpu).pc cfg.ROM_BASE = k) :=
    fun k hk => add32_eq_iff_sub32 _ _ k hpc (by omega) hk
  have h1 := hP 0x488160 (by omega)
  have h2 := hP 0x488140 (by omega)
  have h3 := hP 0x48e080 (by omega)
  have h4 := hP 0x48c5e0 (by omega)
  have h5 := hP 0x4a10a0 (by omega)
  have cases := sigsegv_handler_cases cfg env fa fi s hscreen
  rw [hA, hM, h1, h2, h3, h4, h5] at cases
  have skip_spec : sigsegv_handler cfg env fa fi s
        = (s, sigsegv_return_t.SIGSEGV_RETURN_SKIP_INSTRUCTION) →
      fault_classifier_skips cfg (env.PrefsFindBool "ignoresegv") fa
        (s.cpu s.current_cpu).pc (s.gpr s.current_cpu) := by
    intro e
    rcases cases with ⟨-, c⟩ | ⟨e2, -⟩
    · unfold fault_classifier_skips
      rcases c with a | ⟨m, x | x | x | ⟨p, g⟩ | ⟨p, g⟩ | i⟩
      · exact Or.inl a
      · exact Or.inr ⟨m, Or.inl x⟩
      · exact Or.inr ⟨m, Or.inr (Or.inl x)⟩
      · exact Or.inr ⟨m, Or.inr (Or.inr (Or.inl x))⟩
      · exact Or.inr ⟨m, Or.inr (Or.inr (Or.inr (Or.inl ⟨Or.inl p, g⟩)))⟩
      · exact Or.inr ⟨m, Or.inr (Or.inr (Or.inr (Or.inl ⟨Or.inr p, g⟩)))⟩
      · exact Or.inr ⟨m, Or.inr (Or.inr (Or.inr (Or.inr i)))⟩
    · rw [e2] at e
      have e3 : sigsegv_return_t.SIGSEGV_RETURN_FAILURE
          = sigsegv_return_t.SIGSEGV_RETURN_SKIP_INSTRUCTION := by
        have e4 := congrArg Prod.snd e
        rw [sigsegv_fatal_snd] at e4
        exact e4
      exact absurd e3 (by decide)
  have spec_skip : fault_classifier_skips cfg (env.PrefsFindBool "ignoresegv") fa
        (s.cpu s.current_cpu).pc (s.gpr s.current_cpu) →
      sigsegv_handler cfg env fa fi s
        = (s, sigsegv_return_t.SIGSEGV_RETURN_SKIP_INSTRUCTION) := by
    intro sp
    rcases cases with ⟨e, -⟩ | ⟨-, c⟩
    · exact e
    · exfalso
      apply c
      unfold fault_classifier_skips at sp
      rcases sp with a | ⟨m, x | x | x | ⟨p | p, g⟩ | i⟩
      · exact Or.inl a
      · exact Or.inr ⟨m, Or.inl x⟩
      · exact Or.inr ⟨m, Or.inr (Or.inl x)⟩
      · exact Or.inr ⟨m, Or.inr (Or.inr (Or.inl x))⟩
      · exact Or.inr ⟨m, Or.inr (Or.inr (Or.inr (Or.inl ⟨p, g⟩)))⟩
      · exact Or.inr ⟨m, Or.inr (Or.inr (Or.inr (Or.inr (Or.inl ⟨p, g⟩))))⟩
      · exact Or.inr ⟨m, Or.inr (Or.inr (Or.inr (Or.inr (Or.inr i))))⟩
  have snd_skip : (sigsegv_handler cfg env fa fi s).2
        = sigsegv_return_t.SIGSEGV_RETURN_SKIP_INSTRUCTION →
      sigsegv_handler cfg env fa fi s
        = (s, sigsegv_return_t.SIGSEGV_RETURN_SKIP_INSTRUCTION) := by
    intro h
    rcases cases with ⟨e, -⟩ | ⟨e2, -⟩
    · exact e
    · rw [e2, sigsegv_fatal_snd] at h
      exact absurd h (by decide)
  refine ⟨⟨fun h => skip_spec (snd_skip h), fun sp => by rw [spec_skip sp]⟩, hA, ?_, ?_, ?_⟩
  · intro h
    rw [snd_skip h]
  · intro h
    rcases cases with ⟨e, -⟩ | ⟨e2, -⟩
    · rw [e] at h
      exact absurd rfl h
    · rw [e2]
      exact ⟨sigsegv_fatal_snd cfg fa fi s, sigsegv_fatal_log cfg fa fi s⟩
  · intro p g ar
    apply spec_skip
    unfold fault_classifier_skips
    refine Or.inr ⟨Or.inl (by omega), Or.inl ⟨?_, g⟩⟩
    rw [← h1, p]
    unfold add32
    exact (Nat.mod_eq_of_lt (by omega)).symm

/-- Witness of C13: the probe of the MacOS 8 installer, a fault outside the
ROM image with guest PC = ROM_BASE + 0x488160 and GPR20 = 0xf8000000. -/
theorem sigsegv_handler_decision_witness :
    (¬ (sample_config.ENABLE_VOSF = true ∧
        (sample_env core_returns).Screen_fault_handler 0xf8000000 0
          (sample_fault_state sample_config 0x40c88160 0xf8000000) = true) ∧
      0xf8000000 < 2 ^ sample_config.uintptr_bits ∧
      sample_config.ROM_BASE + sample_config.ROM_SIZE ≤ 2 ^ sample_config.uintptr_bits ∧
      ((sample_fault_state sample_config 0x40c88160 0xf8000000).cpu
        (sample_fault_state sample_config 0x40c88160 0xf8000000).current_cpu).pc < 4294967296 ∧
      sample_config.ROM_BASE + sample_config.ROM_AREA_SIZE < 4294967296 ∧
      sample_config.RAMBase + sample_config.RAMSize < 4294967296) ∧
    sigsegv_handler sample_config (sample_env core_returns) 0xf8000000 0
        (sample_fault_state sample_config 0x40c88160 0xf8000000)
      = (sample_fault_state sample_config 0x40c88160 0xf8000000,
          sigsegv_return_t.SIGSEGV_RETURN_SKIP_INSTRUCTION) :=
  ⟨by decide, (sigsegv_handler_decision sample_config (sample_env core_returns) 0xf8000000 0
    (sample_fault_state sample_config 0x40c88160 0xf8000000)
    (by decide) (by decide) (by decide) (by decide) (by decide) (by decide)).2.2.2.2
    (by decide) (by decide) (by decide)⟩

/-! ## The Resource Manager thunk -/

/-- Subtracting and adding the frame size gives back a 32-bit stack pointer. -/
theorem add32_sub32_cancel (a b : Nat) (ha : a < 4294967296) (hb : b < 4294967296) :
    add32 (sub32 a b) b = a := by
  unfold add32 sub32
  rw [Nat.mod_eq_of_lt hb]
  omega

/-- C14. Resource-manager thunk: for every original-routine entry and every
behaviour of the nested `execute`, `sheepshaver_cpu::get_resource` hands the
original routine a stack pointer lowered by 56 and LR on the trampoline, then
calls `check_load_invoc` once, with type = GPR3 at thunk entry, id = the low
16 bits of GPR4 at thunk entry read as a signed 16-bit integer, and handle =
GPR3 as left by the original routine; on return GPR3 equals that handle
whatever `check_load_invoc` does to the registers, and, `check_load_invoc`
being a hook that leaves LR, GPR1 and the record of calls alone, LR equals its
value at entry and the 56-byte frame is closed: GPR1 is the value left by the
nested `execute` plus 56, hence the entry SP when the routine preserves SP. -/
theorem get_resource_thunk (env : Env) (this : cpu_id) (old_get_resource : Nat) (s : State) :
    (sheepshaver_cpu.get_resource env this old_get_resource s).gpr this 3
      = (env.execute this old_get_resource
          ((s.set_gpr this 1 (sub32 (s.gpr this 1) 56)).set_lr this env.trampoline)).gpr this 3 ∧
    (∃ u, u.log = (env.execute this old_get_resource
            ((s.set_gpr this 1 (sub32 (s.gpr this 1) 56)).set_lr this env.trampoline)).log
          ++ [Event.check_load_invoc (s.gpr this 3) (int16 (s.gpr this 4))
              ((env.execute this old_get_resource
                ((s.set_gpr this 1 (sub32 (s.gpr this 1) 56)).set_lr this
                  env.trampoline)).gpr this 3)] ∧
        sheepshaver_cpu.get_resource env this old_get_resource s
          = ((env.check_load_invoc (s.gpr this 3) (int16 (s.gpr this 4))
              ((env.execute this old_get_resource
                ((s.set_gpr this 1 (sub32 (s.gpr this 1) 56)).set_lr this
                  env.trampoline)).gpr this 3) u).set_gpr this 3
              ((env.execute this old_get_resource
                ((s.set_gpr this 1 (sub32 (s.gpr this 1) 56)).set_lr this
                  env.trampoline)).gpr this 3)).set_gpr this 1
            (add32 ((env.check_load_invoc (s.gpr this 3) (int16 (s.gpr this 4))
              ((env.execute this old_get_resource
                ((s.set_gpr this 1 (sub32 (s.gpr this 1) 56)).set_lr this
                  env.trampoline)).gpr this 3) u).gpr this 1) 56)) ∧
    ((∀ ty id h u, (env.check_load_invoc ty id h u).log = u.log) →
      (sheepshaver_cpu.get_resource env this old_get_resource s).log
        = (env.execute this old_get_resource
            ((s.set_gpr this 1 (sub32 (s.gpr this 1) 56)).set_lr this env.trampoline)).log
          ++ [Event.check_load_invoc (s.gpr this 3) (int16 (s.gpr this 4))
              ((env.execute this old_get_resource
                ((s.set_gpr this 1 (sub32 (s.gpr this 1) 56)).set_lr this
                  env.trampoline)).gpr this 3)]) ∧
    ((∀ ty id h u, ((env.check_load_invoc ty id h u).cpu this).lr = (u.cpu this).lr) →
      ((sheepshaver_cpu.get_resource env this old_get_resource s).cpu this).lr
        = (s.cpu this).lr) ∧
    ((∀ ty id h u, (env.check_load_invoc ty id h u).gpr this 1 = u.gpr this 1) →
      (sheepshaver_cpu.get_resource env this old_get_resource s).gpr this 1
          = add32 ((env.execute this old_get_resource
              ((s.set_gpr this 1 (sub32 (s.gpr this 1) 56)).set_lr this
                env.trampoline)).gpr this 1) 56 ∧
        (s.gpr this 1 < 4294967296 →
          (env.execute this old_get_resource
              ((s.set_gpr this 1 (sub32 (s.gpr this 1) 56)).set_lr this
                env.trampoline)).gpr this 1
            = sub32 (s.gpr this 1) 56 →
          (sheepshaver_cpu.get_resource env this old_get_resource s).gpr this 1
            = s.gpr this 1)) := by
  have hlr0 : ((s.set_gpr this 1 (sub32 (s.gpr this 1) 56)).cpu this).lr = (s.cpu this).lr := by
    simp only [State.set_gpr, State.set_cpu_cpu_same]
  generalize ht : env.execute this old_get_resource
    ((s.set_gpr this 1 (sub32 (s.gpr this 1) 56)).set_lr this env.trampoline) = t
  have hdef : sheepshaver_cpu.get_resource env this old_get_resource s
      = ((env.check_load_invoc (s.gpr this 3) (int16 (s.gpr this 4)) (t.gpr this 3)
            ((t.set_lr this (s.cpu this).lr).emit
              (Event.check_load_invoc (s.gpr this 3) (int16 (s.gpr this 4))
                (t.gpr this 3)))).set_gpr this 3 (t.gpr this 3)).set_gpr this 1
          (add32 ((env.check_load_invoc (s.gpr this 3) (int16 (s.gpr this 4)) (t.gpr this 3)
            ((t.set_lr this (s.cpu this).lr).emit
              (Event.check_load_invoc (s.gpr this 3) (int16 (s.gpr this 4))
                (t.gpr this 3)))).gpr this 1) 56) := by
    rw [← ht]
    simp only [sheepshaver_cpu.get_resource, execute_ppc, hlr0]
    simp (disch := omega) only [State.set_gpr, State.set_lr, State.gpr, State.set_cpu_cpu_same,
      store_same, store_other]
  rw [hdef]
  refine ⟨?_, ⟨(t.set_lr this (s.cpu this).lr).emit
      (Event.check_load_invoc (s.gpr this 3) (int16 (s.gpr this 4)) (t.gpr this 3)),
    rfl, rfl⟩, ?_, ?_, ?_⟩
  · simp (disch := omega) only [State.set_gpr, State.gpr, State.set_cpu_cpu_same, store_same,
      store_other]
  · intro hlog
    simp only [State.set_gpr, State.set_cpu_log, hlog]
    rfl
  · intro hlr
    simp only [State.set_gpr, State.set_cpu_cpu_same, hlr]
    simp only [State.emit, State.set_lr, State.set_cpu_cpu_same]
  · intro hsp
    have e1 : (env.check_load_invoc (s.gpr this 3) (int16 (s.gpr this 4)) (t.gpr this 3)
        ((t.set_lr this (s.cpu this).lr).emit
          (Event.check_load_invoc (s.gpr this 3) (int16 (s.gpr this 4))
            (t.gpr this 3)))).gpr this 1 = t.gpr this 1 := by
      rw [hsp]
      simp only [State.emit, State.set_lr, State.gpr, State.set_cpu_cpu_same]
    have e2 : ∀ (w : State) (v : Nat), ((w.set_gpr this 3 v).set_gpr this 1
        (add32 (w.gpr this 1) 56)).gpr this 1 = add32 (w.gpr this 1) 56 := by
      intro w v
      simp only [State.set_gpr, State.gpr, State.set_cpu_cpu_same, store_same]
    rw [e2, e1]
    refine ⟨rfl, ?_⟩
    intro hs hpres
    rw [hpres]
    exact add32_sub32_cancel _ _ hs (by omega)

/-- Witness of C14: the thunk entered with GPR3 = 0x54455354 and GPR4 = 42
around an original routine that returns at once; the hook is observed once,
with the handle the routine left in GPR3. -/
theorem get_resource_thunk_witness :
    (∀ ty id h u, ((sample_env core_returns).check_load_invoc ty id h u).log = u.log) ∧
    (sheepshaver_cpu.get_resource (sample_env core_returns) cpu_id.main_cpu 0x3000
        (((sample_state sample_config 1).set_gpr cpu_id.main_cpu 3 0x54455354).set_gpr
          cpu_id.main_cpu 4 42)).log
      = [Event.check_load_invoc 0x54455354 42 0x54455354] :=
  ⟨fun _ _ _ _ => rfl, (get_resource_thunk (sample_env core_returns) cpu_id.main_cpu 0x3000
    (((sample_state sample_config 1).set_gpr cpu_id.main_cpu 3 0x54455354).set_gpr
      cpu_id.main_cpu 4 42)).2.2.1 (fun _ _ _ _ => rfl)⟩

/-! ## Dispatch of the sheep pseudo-opcode -/

/-- The field `EMUL_OP_field` is the low six bits of the opcode. -/
theorem EMUL_OP_field_extract_eq (v : Nat) : EMUL_OP_field_extract v = v &&& 0x3f := by
  simp [EMUL_OP_field_extract, bit_field_extract, bit_field_mask]

/-- The field `NATIVE_OP_field` is the five bits above the low six. -/
theorem NATIVE_OP_field_extract_eq (v : Nat) :
    NATIVE_OP_field_extract v = (v >>> 6) &&& 0x1f := by
  unfold NATIVE_OP_field_extract bit_field_extract bit_field_mask
  apply Nat.eq_of_testBit_eq
  intro i
  simp only [Nat.testBit_shiftRight, Nat.testBit_and, Nat.testBit_shiftLeft,
    Nat.reduceAdd, Nat.reduceSub, Nat.reducePow]
  have e1 : 6 + i - 6 = i := by omega
  have e2 : decide (6 + i ≥ 6) = true := by simp
  rw [e1, e2, Bool.true_and]

/-- The field `FN_field` is bit 11 counted from the least significant bit. -/
theorem FN_field_test_eq (v : Nat) :
    FN_field_test v = decide ((v >>> 11) &&& 1 = 1) := by
  unfold FN_field_test bit_field_test bit_field_mask
  have e : (2 ^ (20 + 1 - 20) - 1) <<< (31 - 20) = 2 ^ 11 := by decide
  rw [e]
  have h1 : (v &&& 2 ^ 11 ≠ 0) ↔ v.testBit 11 = true := by
    constructor
    · intro h
      by_contra hb
      apply h
      apply Nat.eq_of_testBit_eq
      intro i
      rw [Nat.testBit_and, Nat.testBit_two_pow, Nat.zero_testBit]
      by_cases hi : 11 = i
      · subst hi
        simp [hb]
      · simp [hi]
    · intro hb h
      have hz := congrArg (fun x => Nat.testBit x 11) h
      simp only [Nat.testBit_and, Nat.testBit_two_pow_self, hb, Nat.zero_testBit] at hz
      exact absurd hz (by decide)
  have h2 : ((v >>> 11) &&& 1 = 1) ↔ v.testBit 11 = true := by
    rw [Nat.and_one_is_mod, Nat.shiftRight_eq_div_pow, Nat.testBit_to_div_mod, decide_eq_true_eq]
  rw [decide_eq_decide, h1, h2]

/-- Setting a special flag leaves it set. -/
theorem lor_land_self (a f : Nat) : (a ||| f) &&& f = f := by
  apply Nat.eq_of_testBit_eq
  intro i
  rw [Nat.testBit_and, Nat.testBit_or]
  cases a.testBit i <;> cases f.testBit i <;> rfl

/-- The index the EMUL_OP form of `execute_sheep` hands to the dispatcher. -/
theorem EMUL_OP_index (opcode : Nat) (h : 3 ≤ opcode &&& 0x3f) :
    int32 (sub32 (EMUL_OP_field_extract opcode) 3) = ((opcode &&& 0x3f : Nat) : Int) - 3 ∧
    (0 : Int) ≤ ((opcode &&& 0x3f : Nat) : Int) - 3 ∧
    ((opcode &&& 0x3f : Nat) : Int) - 3 ≤ 60 := by
  have hle : opcode &&& 0x3f ≤ 0x3f := Nat.and_le_right
  rw [EMUL_OP_field_extract_eq]
  generalize opcode &&& 0x3f = k at h hle
  unfold int32 sub32
  have e : (k + (4294967296 - 3 % 4294967296)) % 4294967296 = k - 3 := by omega
  rw [e, Nat.mod_eq_of_lt (by omega), if_pos (by omega)]
  omega

/-- C15. Pseudo-op dispatch is total and matches the four-way classification
on the low six bits: for every word with primary opcode 6, `execute_sheep`
(a) with low bits 0 invokes the quit hook, (b) with low bits 1 sets the
EXEC_RETURN special flag and changes no register, PC included, (c) with low
bits 2 calls the native-op dispatcher with selector = bits 21..25 and
afterwards sets PC := LR if bit 20 is set and PC := PC + 4 otherwise, using
the LR and PC values left by the dispatcher, and (d) with any low-bits value
s >= 3 calls the external 68k-op dispatcher with 68k PC = GPR24 and index =
s - 3 (so 0 <= index <= 60), leaves the run mode MODE_68K and advances PC by
exactly 4: PC is the value the dispatcher left plus 4 in 32-bit arithmetic,
hence the entry PC plus 4 when the dispatcher hands PC back. -/
theorem execute_sheep_dispatch (cfg : Config) (env : Env) (this : cpu_id) (opcode : Nat)
    (s : State) (hprim : (opcode >>> 26) &&& 0x3f = 6) (h68 : cfg.MODE_68K < 4294967296) :
    (opcode &&& 0x3f = 0 ∨ opcode &&& 0x3f = 1 ∨ opcode &&& 0x3f = 2 ∨ 3 ≤ opcode &&& 0x3f) ∧
    (opcode &&& 0x3f = 0 →
      execute_sheep cfg env this opcode s = s.emit Event.QuitEmulator) ∧
    (opcode &&& 0x3f = 1 →
      execute_sheep cfg env this opcode s
        = s.set_spcflags this cfg.SPCFLAG_CPU_EXEC_RETURN ∧
      ((execute_sheep cfg env this opcode s).cpu this).spcflags
          &&& cfg.SPCFLAG_CPU_EXEC_RETURN = cfg.SPCFLAG_CPU_EXEC_RETURN ∧
      ((execute_sheep cfg env this opcode s).cpu this).gpr = (s.cpu this).gpr ∧
      ((execute_sheep cfg env this opcode s).cpu this).fpr = (s.cpu this).fpr ∧
      ((execute_sheep cfg env this opcode s).cpu this).pc = (s.cpu this).pc ∧
      ((execute_sheep cfg env this opcode s).cpu this).lr = (s.cpu this).lr ∧
      ((execute_sheep cfg env this opcode s).cpu this).ctr = (s.cpu this).ctr ∧
      ((execute_sheep cfg env this opcode s).cpu this).cr = (s.cpu this).cr ∧
      ((execute_sheep cfg env this opcode s).cpu this).xer = (s.cpu this).xer ∧
      (execute_sheep cfg env this opcode s).mem = s.mem ∧
      (execute_sheep cfg env this opcode s).log = s.log) ∧
    (opcode &&& 0x3f = 2 →
      execute_sheep cfg env this opcode s
        = (if (opcode >>> 11) &&& 1 = 1 then
            (NativeOp cfg env ((opcode >>> 6) &&& 0x1f) s).set_pc this
              ((NativeOp cfg env ((opcode >>> 6) &&& 0x1f) s).cpu this).lr
          else
            (NativeOp cfg env ((opcode >>> 6) &&& 0x1f) s).set_pc this
              (add32 ((NativeOp cfg env ((opcode >>> 6) &&& 0x1f) s).cpu this).pc 4))) ∧
    (3 ≤ opcode &&& 0x3f →
      ((0 : Int) ≤ ((opcode &&& 0x3f : Nat) : Int) - 3 ∧
        ((opcode &&& 0x3f : Nat) : Int) - 3 ≤ 60) ∧
      execute_sheep cfg env this opcode s
        = ((unmarshal_68k this
              (env.EmulOp (execute_sheep_enter cfg env this s).2 (s.gpr this 24)
                (((opcode &&& 0x3f : Nat) : Int) - 3) (execute_sheep_enter cfg env this s).1).2
              (env.EmulOp (execute_sheep_enter cfg env this s).2 (s.gpr this 24)
                (((opcode &&& 0x3f : Nat) : Int) - 3)
                (execute_sheep_enter cfg env this s).1).1).write32
            cfg.XLM_RUN_MODE cfg.MODE_68K).set_pc this
          (add32 ((env.EmulOp (execute_sheep_enter cfg env this s).2 (s.gpr this 24)
              (((opcode &&& 0x3f : Nat) : Int) - 3)
              (execute_sheep_enter cfg env this s).1).1.cpu this).pc 4) ∧
      ReadMacInt32 (execute_sheep cfg env this opcode s).mem cfg.XLM_RUN_MODE
        = cfg.MODE_68K ∧
      ((execute_sheep cfg env this opcode s).cpu this).pc
        = add32 ((env.EmulOp (execute_sheep_enter cfg env this s).2 (s.gpr this 24)
            (((opcode &&& 0x3f : Nat) : Int) - 3)
            (execute_sheep_enter cfg env this s).1).1.cpu this).pc 4 ∧
      (((env.EmulOp (execute_sheep_enter cfg env this s).2 (s.gpr this 24)
            (((opcode &&& 0x3f : Nat) : Int) - 3)
            (execute_sheep_enter cfg env this s).1).1.cpu this).pc = (s.cpu this).pc →
        (s.cpu this).pc + 4 < 4294967296 →
        ((execute_sheep cfg env this opcode s).cpu this).pc = (s.cpu this).pc + 4)) := by
  have _ := hprim
  refine ⟨by omega, ?_, ?_, ?_, ?_⟩
  · intro h
    unfold execute_sheep
    rw [if_pos h]
  · intro h
    have e : execute_sheep cfg env this opcode s
        = s.set_spcflags this cfg.SPCFLAG_CPU_EXEC_RETURN := by
      unfold execute_sheep
      rw [if_neg (by omega), if_pos h]
    rw [e]
    simp only [State.set_spcflags, State.set_cpu_cpu_same, State.set_cpu_mem,
      State.set_cpu_log, lor_land_self, and_self]
  · intro h
    unfold execute_sheep
    rw [if_neg (by omega), if_neg (by omega), if_pos h, NATIVE_OP_field_extract_eq,
      FN_field_test_eq]
    simp only [decide_eq_true_eq]
  · intro h
    obtain ⟨i1, i2, i3⟩ := EMUL_OP_index opcode h
    have e := execute_sheep_EMUL_OP cfg env this opcode s h
    rw [i1] at e
    simp only [] at e
    obtain ⟨-, -, -, -, u5⟩ := unmarshal_68k_spec this
      (env.EmulOp (execute_sheep_enter cfg env this s).2 (s.gpr this 24)
        (((opcode &&& 0x3f : Nat) : Int) - 3) (execute_sheep_enter cfg env this s).1).2
      (env.EmulOp (execute_sheep_enter cfg env this s).2 (s.gpr this 24)
        (((opcode &&& 0x3f : Nat) : Int) - 3) (execute_sheep_enter cfg env this s).1).1
    have epc : (((unmarshal_68k this
        (env.EmulOp (execute_sheep_enter cfg env this s).2 (s.gpr this 24)
          (((opcode &&& 0x3f : Nat) : Int) - 3) (execute_sheep_enter cfg env this s).1).2
        (env.EmulOp (execute_sheep_enter cfg env this s).2 (s.gpr this 24)
          (((opcode &&& 0x3f : Nat) : Int) - 3)
          (execute_sheep_enter cfg env this s).1).1).write32
          cfg.XLM_RUN_MODE cfg.MODE_68K).cpu this).pc
        = ((env.EmulOp (execute_sheep_enter cfg env this s).2 (s.gpr this 24)
          (((opcode &&& 0x3f : Nat) : Int) - 3)
          (execute_sheep_enter cfg env this s).1).1.cpu this).pc := by
      rw [u5]
      simp only [State.write32, State.set_cpu_cpu_same]
    rw [epc] at e
    refine ⟨⟨i2, i3⟩, e, ?_, ?_, ?_⟩
    · rw [e]
      simp only [State.set_pc, State.write32, State.set_cpu_mem]
      rw [ReadMacInt32_WriteMacInt32]
      exact Nat.mod_eq_of_lt h68
    · rw [e]
      simp only [State.set_pc, State.set_cpu_cpu_same]
    · intro hpc hlt
      rw [e]
      simp only [State.set_pc, State.set_cpu_cpu_same]
      rw [hpc]
      exact Nat.mod_eq_of_lt hlt

/-- Witness of C15: the EXEC_RETURN opcode, primary opcode 6 and low bits 1. -/
theorem execute_sheep_dispatch_witness :
    (((POWERPC_EMUL_OP ||| 1) >>> 26) &&& 0x3f = 6 ∧ sample_config.MODE_68K < 4294967296 ∧
      (POWERPC_EMUL_OP ||| 1) &&& 0x3f = 1) ∧
    execute_sheep sample_config (sample_env core_returns) cpu_id.main_cpu (POWERPC_EMUL_OP ||| 1)
        (sample_state sample_config 1)
      = (sample_state sample_config 1).set_spcflags cpu_id.main_cpu
          sample_config.SPCFLAG_CPU_EXEC_RETURN :=
  ⟨by decide, ((execute_sheep_dispatch sample_config (sample_env core_returns) cpu_id.main_cpu
    (POWERPC_EMUL_OP ||| 1) (sample_state sample_config 1) (by decide) (by decide)).2.2.1
    (by decide)).1⟩

end SheepShaver
